import Mathlib

/-!
Verification development for the APILinker connector pipeline
(`apilinker/core/connector.py`): request preparation, response
normalization, pagination, retry/error handling, and the SSE streaming
engine (parsing, reconnection, backpressure consumption).

Python values appearing in JSON bodies, params and event dicts are
modelled by the inductive `PyVal`; Python dicts are association lists
with first-occurrence lookup and in-place update, mirroring insertion
order semantics.  Python string primitives used by the source
(`split`, `startswith`, `strip`, slicing) are re-implemented
structurally over character lists so that every definition evaluates
by kernel reduction.  Wall-clock sleeps, limiter interactions and
network calls are modelled as observable trace events; scripted
connection outcomes stand for the external HTTP world.  Time values
(delays, timeouts) are rationals: the connector only stores, rescales
and compares them with `max`, so rational arithmetic is a faithful
model of the Python floats involved.
-/

namespace APILinker

/-- Model of a Python/JSON value as produced by `response.json()` and
used in params, headers and SSE event dicts. -/
inductive PyVal where
  | none
  | bool (b : Bool)
  | int (n : Int)
  | str (s : String)
  | list (xs : List PyVal)
  | dict (fields : List (String × PyVal))
deriving Repr

/-- Association-list lookup modelling Python `d.get(k)` /
`k in d` + `d[k]` (value type is `PyVal` for JSON dicts and `String`
for header dicts). -/
def dictGet {α : Type} (fields : List (String × α)) (k : String) :
    Option α :=
  match fields with
  | [] => Option.none
  | (k2, v) :: rest => if k2 == k then some v else dictGet rest k

/-- Python dict single-key assignment `d[k] = v`: overwrite in place if
the key exists, else append (insertion order preserved). -/
def dictSet {α : Type} (fields : List (String × α)) (k : String) (v : α) :
    List (String × α) :=
  if fields.any (fun kv => kv.1 == k) then
    fields.map (fun kv => if kv.1 == k then (k, v) else kv)
  else
    fields ++ [(k, v)]

/-- Python `d.update(other)` over association-list dicts. -/
def dictUpdate {α : Type} (fields other : List (String × α)) :
    List (String × α) :=
  other.foldl (fun acc kv => dictSet acc kv.1 kv.2) fields

/-- Python `d.setdefault(k, v)`. -/
def dictSetDefault {α : Type} (fields : List (String × α)) (k : String)
    (v : α) : List (String × α) :=
  if fields.any (fun kv => kv.1 == k) then fields else fields ++ [(k, v)]

/-- Membership test `k in d` for the dict model. -/
def dictHas {α : Type} (fields : List (String × α)) (k : String) : Bool :=
  fields.any (fun kv => kv.1 == k)

/-- Python truthiness of a modelled value (`bool(v)`), used by
`while next_page:` and `if event_id:` in the source. -/
def pyTruthy : PyVal → Bool
  | .none => false
  | .bool b => b
  | .int n => n != 0
  | .str s => s != ""
  | .list xs => !xs.isEmpty
  | .dict fields => !fields.isEmpty

/-- Python `str(v)` for the values the connector converts
(`last_event_id = str(event_id)`). -/
def pyStr : PyVal → String
  | .none => "None"
  | .bool b => if b then "True" else "False"
  | .int n => toString n
  | .str s => s
  | .list _ => "<list>"
  | .dict _ => "<dict>"

/-- Split a character list at every occurrence of the separator,
accumulating the current chunk in reverse. -/
def splitCharsAux (sep : Char) (acc : List Char) :
    List Char → List (List Char)
  | [] => [acc.reverse]
  | c :: rest =>
      if c == sep then acc.reverse :: splitCharsAux sep [] rest
      else splitCharsAux sep (c :: acc) rest

/-- Python `s.split(sep)` for a one-character separator (used with
`"."` for dotted paths). -/
def pySplit (s : String) (sep : Char) : List String :=
  (splitCharsAux sep [] s.data).map String.mk

/-- Python `s.split(sep, 1)` for a one-character separator: the text
before the first occurrence and everything after it.  Returns `none`
when the separator does not occur (the source guards this case with
`":" in line`). -/
def pySplitFirst (s : String) (sep : Char) : Option (String × String) :=
  let rec go (acc : List Char) : List Char → Option (String × String)
    | [] => Option.none
    | c :: rest =>
        if c == sep then some (String.mk acc.reverse, String.mk rest)
        else go (c :: acc) rest
  go [] s.data

/-- Python `sep in s` for a single character. -/
def pyContainsChar (s : String) (c : Char) : Bool :=
  s.data.any (fun c2 => c2 == c)

/-- Python `s.startswith(p)` for a one-character prefixing test. -/
def pyStartsWithChar (s : String) (c : Char) : Bool :=
  match s.data with
  | [] => false
  | c2 :: _ => c2 == c

/-- Python `s[1:]`. -/
def pyDropFirst (s : String) : String :=
  match s.data with
  | [] => ""
  | _ :: rest => String.mk rest

/-- Python `s[:n]` (used for the 1000-character response-body
truncation). -/
def pyTake (s : String) (n : Nat) : String :=
  String.mk (s.data.take n)

/-- ASCII whitespace recognised by Python `str.strip()` with no
arguments. -/
def isPyWhitespace (c : Char) : Bool :=
  c == ' ' || c == '\t' || c == '\n' || c == '\x0d' || c == '\x0b' || c == '\x0c'

/-- Python `s.strip()`. -/
def pyStrip (s : String) : String :=
  String.mk
    (((s.data.dropWhile isPyWhitespace).reverse.dropWhile
        isPyWhitespace).reverse)

/-- ASCII `str.lower()` as applied to the `drop_policy` string. -/
def pyLower (s : String) : String :=
  String.mk (s.data.map (fun c =>
    if 'A' ≤ c && c ≤ 'Z' then Char.ofNat (c.toNat + 32) else c))

/-- Digit-sequence value helper for `pyToInt`. -/
def digitsVal : List Char → Option Nat
  | [] => Option.none
  | cs =>
      if cs.all (fun c => '0' ≤ c && c ≤ '9') then
        some (cs.foldl (fun acc c => acc * 10 + (c.toNat - 48)) 0)
      else Option.none

/-- Python `int(s)` on a string: optional surrounding whitespace, an
optional sign, then decimal digits; anything else raises `ValueError`,
modelled as `none`. -/
def pyToInt (s : String) : Option Int :=
  let cs := (pyStrip s).data
  match cs with
  | '+' :: rest => (digitsVal rest).map (fun n => (n : Int))
  | '-' :: rest => (digitsVal rest).map (fun n => -(n : Int))
  | _ => (digitsVal cs).map (fun n => (n : Int))

/-- Closed error taxonomy.  Modelled from the spec: the enumeration
`ErrorCategory` lives in `apilinker/core/error_handling.py`, which is
not among the sources at hand; the spec fixes it as the closed set
`{TIMEOUT, NETWORK, AUTHENTICATION, VALIDATION, RATE_LIMIT, SERVER,
CLIENT, UNKNOWN}`. -/
inductive ErrorCategory where
  | TIMEOUT
  | NETWORK
  | AUTHENTICATION
  | VALIDATION
  | RATE_LIMIT
  | SERVER
  | CLIENT
  | UNKNOWN
deriving Repr, DecidableEq

/-- Exceptions that can cross the connector's `except` boundaries:
httpx timeouts, transport/request errors, HTTP status errors carrying a
response, and anything else. -/
inductive Exc where
  | timeout (msg : String)
  | transport (msg : String)
  | httpStatus (status : Nat) (text : String)
  | other (msg : String)
deriving Repr, DecidableEq

/-- Python `str(exc)` as interpolated into error messages. -/
def excStr : Exc → String
  | .timeout msg => msg
  | .transport msg => msg
  | .httpStatus status _ => toString status ++ " error"
  | .other msg => msg

/-- Model of `hasattr(exc, "response")` / `exc.response.text`: only
`httpx.HTTPStatusError` carries a response in our exception model. -/
def excResponseText : Exc → Option String
  | .httpStatus _ text => some text
  | _ => Option.none

/-- Embedding of `ApiConnector._categorize_error`: maps an exception to
`(ErrorCategory, status_code)` with timeouts checked before transport
errors and HTTP status codes bucketed per the source. -/
def categorizeError : Exc → ErrorCategory × Option Int
  | .timeout _ => (ErrorCategory.TIMEOUT, some 0)
  | .transport _ => (ErrorCategory.NETWORK, some 0)
  | .httpStatus status _ =>
      let cat :=
        if status == 401 || status == 403 then ErrorCategory.AUTHENTICATION
        else if status == 422 || status == 400 then ErrorCategory.VALIDATION
        else if status == 429 then ErrorCategory.RATE_LIMIT
        else if 500 ≤ status then ErrorCategory.SERVER
        else if 400 ≤ status then ErrorCategory.CLIENT
        else ErrorCategory.UNKNOWN
      (cat, some (status : Int))
  | .other _ => (ErrorCategory.UNKNOWN, Option.none)

/-- Structured connector error.  Modelled from the spec: the
`ApiLinkerError` class lives in `apilinker/core/error_handling.py`
(not among the sources); the spec fixes its carried fields as
`{message, category, status_code?, response_body? (truncated 1000
chars), request_url, request_method, additional_context}`, stored as
given by the raising call site. -/
structure ApiLinkerError where
  message : String
  error_category : ErrorCategory
  status_code : Option Int := Option.none
  response_body : Option String := Option.none
  request_url : Option String := Option.none
  request_method : Option String := Option.none
  additional_context : PyVal := PyVal.none
deriving Repr

/-- Embedding of the `response_body` extraction pattern
`exc.response.text[:1000]` guarded by `hasattr(exc, "response")`. -/
def truncatedBody (e : Exc) : Option String :=
  (excResponseText e).map (fun t => pyTake t 1000)

/-- Walk a dotted-path segment list through nested dicts, one segment
per step as in the `for part in path_parts` loops.  Returns the value
reached together with the number of successful navigation steps taken
before the walk stopped (stopping with segments left over models the
`break` on a missing segment). -/
def walkSteps : List String → PyVal → PyVal × Nat
  | [], current => (current, 0)
  | part :: rest, current =>
      match current with
      | .dict fields =>
          match dictGet fields part with
          | some v =>
              let (v2, n) := walkSteps rest v
              (v2, n + 1)
          | Option.none => (current, 0)
      | _ => (current, 0)

/-- Dotted-path navigation that succeeds only when every segment
resolves (the shared shape of the `data_path` / `next_page_path`
walks, each of which breaks to a branch-specific fallback on a missing
segment). -/
def walkAll : List String → PyVal → Option PyVal
  | [], current => some current
  | part :: rest, current =>
      match current with
      | .dict fields =>
          match dictGet fields part with
          | some v => walkAll rest v
          | Option.none => Option.none
      | _ => Option.none

/-- Embedding of the `response_path` block of
`ApiConnector._process_response` (connector.py lines 216-230): walk the
dotted segments, breaking on the first missing one, then assign the
walked value back under the guard `current_data is not data`, which
holds exactly when at least one navigation step succeeded (each
successful step moves to a strictly nested freshly-parsed JSON value,
so object identity with the root is lost after the first step). -/
def extractResponsePath (response_path : Option String) (data : PyVal) :
    PyVal :=
  match response_path with
  | Option.none => data
  | some path =>
      if path == "" then data
      else
        match data with
        | .dict fields =>
            let parts := pySplit path '.'
            let (current, steps) := walkSteps parts (.dict fields)
            if steps == 0 then .dict fields else current
        | other => other

/-- Embedding of the final normalization of
`ApiConnector._process_response`: non-dict/non-list results are wrapped
as `{"value": data}`. -/
def wrapResult (data : PyVal) : PyVal :=
  match data with
  | .dict fields => .dict fields
  | .list xs => .list xs
  | other => .dict [("value", other)]

/-- Embedding of `ApiConnector._process_response` after the HTTP layer:
given the parsed JSON `body` of a 2xx response, extract the configured
`response_path` and normalize the result (response-schema validation is
diagnostic-only in the source and does not affect the value). -/
def processResponseBody (response_path : Option String) (body : PyVal) :
    PyVal :=
  wrapResult (extractResponsePath response_path body)

/-- Authentication configuration.  Modelled from the spec: the
`AuthConfig` classes live in `apilinker/core/auth.py` (not among the
sources); the spec fixes the interface as `{type ∈ {basic, bearer,
api_key}}` plus type-specific credential fields, accessed by the
connector through `hasattr`/`getattr` (hence the `Option` fields). -/
structure AuthCfg where
  type : String
  in_header : Option Bool := Option.none
  header_name : Option String := Option.none
  key : Option String := Option.none
  token : Option String := Option.none
deriving Repr

/-- Pagination configuration dict of an endpoint, with the `dict.get`
defaults used by `_handle_pagination` (`data_path` and
`next_page_path` default to `""`, `page_param` to `"page"`,
`max_pages` to `10`). -/
structure PaginationCfg where
  data_path : String := ""
  next_page_path : String := ""
  page_param : String := "page"
  max_pages : Int := 10
deriving Repr

/-- Per-endpoint `sse` configuration dict: every key optional, looked
up with `dict.get`. -/
structure SSEDict where
  max_events : Option Int := Option.none
  reconnect : Option Bool := Option.none
  reconnect_delay : Option ℚ := Option.none
  max_reconnect_attempts : Option Int := Option.none
  read_timeout : Option ℚ := Option.none
  decode_json : Option Bool := Option.none
  chunk_size : Option Int := Option.none
  backpressure_buffer_size : Option Int := Option.none
  drop_policy : Option String := Option.none
deriving Repr

/-- Embedding of `EndpointConfig` (the fields the request/response/
pagination/SSE pipeline reads; the `request_schema`/`response_schema`/
`rate_limit` entries only drive diagnostics and limiter creation and
never change a computed value).  `name` is the registry key of the
endpoint, used in error contexts. -/
structure EndpointCfg where
  name : String
  path : String
  method : String := "GET"
  params : List (String × PyVal) := []
  headers : List (String × String) := []
  body_template : Option PyVal := Option.none
  pagination : Option PaginationCfg := Option.none
  response_path : Option String := Option.none
  sse : Option SSEDict := Option.none
deriving Repr

/-- Connector-level settings read by the pipeline. -/
structure Connector where
  base_url : String
  auth_config : Option AuthCfg := Option.none
  timeout : ℚ := 30
  retry_count : Nat := 3
  retry_delay : ℚ := 1
  default_headers : List (String × String) := []
deriving Repr

/-- The transient request descriptor built by `_prepare_request`:
`{url, method, headers, params, json?}`. -/
structure Request where
  url : String
  method : String
  headers : List (String × String)
  params : List (String × PyVal)
  json : Option PyVal := Option.none
deriving Repr

/-- Embedding of `ApiConnector._prepare_request` (connector.py lines
133-191) for a resolved endpoint: merge endpoint params with
call-supplied params (call wins), merge default and endpoint headers
(endpoint wins), add auth-derived headers, and attach the body
template under `json` when it is truthy. -/
def prepareRequest (c : Connector) (ep : EndpointCfg)
    (params : Option (List (String × PyVal))) : Request :=
  let request_params :=
    match params with
    | some p => dictUpdate ep.params p
    | Option.none => ep.params
  let headers := dictUpdate c.default_headers ep.headers
  let headers :=
    match c.auth_config with
    | some auth =>
        if auth.type == "api_key" && (auth.in_header.getD false) then
          dictSet headers (auth.header_name.getD "X-API-Key")
            (auth.key.getD "")
        else if auth.type == "bearer" && auth.token.isSome then
          dictSet headers "Authorization" ("Bearer " ++ auth.token.getD "")
        else headers
    | Option.none => headers
  { url := ep.path
    method := ep.method
    headers := headers
    params := request_params
    json :=
      match ep.body_template with
      | some v => if pyTruthy v then some v else Option.none
      | Option.none => Option.none }

/-- Normalization of one pagination element: dict elements pass
through, anything else is wrapped as `{"value": elem}`. -/
def normalizeItem (v : PyVal) : PyVal :=
  match v with
  | .dict fields => .dict fields
  | other => .dict [("value", other)]

/-- Normalization of an extracted pagination payload to a
`list[dict]`, as done both for the first page (lines 303-314) and for
every subsequent page (lines 373-385). -/
def normalizeItems (items : PyVal) : List PyVal :=
  match items with
  | .list xs => xs.map normalizeItem
  | .dict fields => [.dict fields]
  | other => [.dict [("value", other)]]

/-- The `isinstance(x, (str, int))` guard on pagination tokens; in
Python `bool` is a subclass of `int`, so booleans pass it too. -/
def isStrOrInt : PyVal → Bool
  | .str _ => true
  | .int _ => true
  | .bool _ => true
  | _ => false

/-- Next-page-token extraction (lines 317-329 and 387-401): walk the
`next_page_path` segments, then keep the value only when it is a
str/int. -/
def extractToken (next_page_path : String) (data : PyVal) : PyVal :=
  match walkAll (pySplit next_page_path '.') data with
  | some v => if isStrOrInt v then v else PyVal.none
  | Option.none => PyVal.none

/-- Page-items extraction inside the pagination loop (lines 360-371):
walk `data_path`, falling back to an empty list when a segment is
missing, or take the whole body when no `data_path` is configured. -/
def pageItemsOf (data_path : String) (page_data : PyVal) : PyVal :=
  if data_path != "" then
    match walkAll (pySplit data_path '.') page_data with
    | some v => v
    | Option.none => .list []
  else page_data

/-- The `while next_page:` loop of `_handle_pagination` (lines
339-413).  The external HTTP world is a script of page-fetch results
consumed one entry per iteration: `some body` is a 2xx response whose
JSON parsed to `body`, `none` is any exception (transport failure,
non-2xx status, JSON error), which the source logs and answers by
breaking out of the loop; an exhausted script likewise stands for a
failing fetch.  Returns the accumulated items and the trace of
prepared page requests. -/
def paginateLoop (c : Connector) (ep : EndpointCfg) (pg : PaginationCfg)
    (params : Option (List (String × PyVal))) :
    List (Option PyVal) → PyVal → Int → List PyVal → List Request →
    List PyVal × List Request
  | script, next_page, page, all_items, reqs =>
    if !pyTruthy next_page then (all_items, reqs)
    else
      match script with
      | [] => (all_items, reqs)
      | outcome :: rest =>
          let next_params := dictSet (params.getD []) pg.page_param next_page
          let request := prepareRequest c ep (some next_params)
          let reqs := reqs ++ [request]
          match outcome with
          | Option.none => (all_items, reqs)
          | some page_data =>
              let all_items :=
                all_items ++ normalizeItems (pageItemsOf pg.data_path page_data)
              if pg.next_page_path != "" then
                paginateLoop c ep pg params rest
                  (extractToken pg.next_page_path page_data) page all_items reqs
              else
                let page2 := page + 1
                let next2 : PyVal :=
                  if page2 ≤ pg.max_pages then .int page2 else PyVal.none
                paginateLoop c ep pg params rest next2 page2 all_items reqs

/-- Embedding of `ApiConnector._handle_pagination` (connector.py lines
253-413): normalize and return the initial data when pagination is
unconfigured or the body is not a dict; otherwise extract the first
page's items, look for a next-page token, and follow pages via
`paginateLoop`. -/
def handlePagination (c : Connector) (ep : EndpointCfg) (initial : PyVal)
    (params : Option (List (String × PyVal)))
    (script : List (Option PyVal)) : List PyVal × List Request :=
  let fallback : PyVal → List PyVal := fun v =>
    match v with
    | .list xs => xs
    | .dict fields => [.dict fields]
    | other => [.dict [("value", other)]]
  match ep.pagination with
  | Option.none => (fallback initial, [])
  | some pg =>
      match initial with
      | .dict fields =>
          let initial := PyVal.dict fields
          let itemsOpt : Option PyVal :=
            if pg.data_path != "" then
              walkAll (pySplit pg.data_path '.') initial
            else some initial
          match itemsOpt with
          | Option.none => ([initial], [])
          | some items =>
              let items_list := normalizeItems items
              let token : PyVal :=
                if pg.next_page_path != "" then
                  extractToken pg.next_page_path initial
                else PyVal.none
              if !pyTruthy token then (items_list, [])
              else
                paginateLoop c ep pg params script token 2 items_list []
      | nonDict => (fallback nonDict, [])

/-- The `response.raise_for_status()` trigger condition of the pinned
httpx (`httpx>=0.23.0`): it raises an `HTTPStatusError` for any
non-2xx status — informational, redirect, client-error and
server-error responses alike. -/
def httpxRaisesForStatus (status : Nat) : Bool :=
  !(200 ≤ status && status < 300)

/-- Scripted outcome of one `client.request` network call in the
fetch/send retry loops: an exception, or a response with its HTTP
status, raw text and parsed JSON body. -/
inductive AttemptResult where
  | exc (e : Exc)
  | resp (status : Nat) (text : String) (body : PyVal)
deriving Repr

/-- Observable actions of a fetch/send call: limiter acquisition,
the network call itself (with the request descriptor used), the
limiter update from response headers inside `_process_response`, and
retry sleeps. -/
inductive FetchEv where
  | acquire
  | request (r : Request)
  | updateFromResponse (status : Nat)
  | pageRequest (r : Request)
  | sleep (t : ℚ)
deriving Repr

/-- Result of a fetch/send call: a returned value or a raised
structured error. -/
inductive FetchOutcome where
  | ok (v : PyVal)
  | error (e : ApiLinkerError)
deriving Repr

/-- The `params` entry of the fetch error context (`params` may be
`None`). -/
def paramsVal (params : Option (List (String × PyVal))) : PyVal :=
  match params with
  | some p => .dict p
  | Option.none => PyVal.none

/-- The `ApiLinkerError` raised by `fetch_data` after retry
exhaustion (connector.py lines 970-978). -/
def mkFetchError (name : String) (req : Request)
    (params : Option (List (String × PyVal))) (e : Exc) : ApiLinkerError :=
  let (cat, code) := categorizeError e
  { message := "Failed to fetch data from " ++ name ++ ": " ++ excStr e
    error_category := cat
    status_code := code
    response_body := truncatedBody e
    request_url := some req.url
    request_method := some req.method
    additional_context :=
      .dict [("endpoint", .str name), ("params", paramsVal params)] }

/-- One round of the `fetch_data` retry loop (lines 918-955),
recursing on the number of attempts left.  `attempt` is the 1-based
loop counter; an attempt whose response has a non-2xx status raises
at the `raise_for_status` call before `_process_response`, while a
2xx attempt runs `_process_response` (limiter update, status check,
body parse, path extraction) and then the pagination walk when
configured. -/
def fetchAttempts (c : Connector) (ep : EndpointCfg)
    (params : Option (List (String × PyVal))) (req : Request)
    (attemptScript : Nat → AttemptResult)
    (pageScript : List (Option PyVal)) :
    Nat → Nat → Option Exc → List FetchEv × Option PyVal × Option Exc
  | 0, _, lastExc => ([], Option.none, lastExc)
  | left + 1, attempt, lastExc =>
      let onExc : Exc → List FetchEv → List FetchEv × Option PyVal × Option Exc :=
        fun e pre =>
          if attempt < c.retry_count then
            let (evs, r, l2) :=
              fetchAttempts c ep params req attemptScript pageScript left
                (attempt + 1) (some e)
            (pre ++ [FetchEv.sleep (c.retry_delay * (attempt : ℚ))] ++ evs, r, l2)
          else
            let (evs, r, l2) :=
              fetchAttempts c ep params req attemptScript pageScript left
                (attempt + 1) (some e)
            (pre ++ evs, r, l2)
      match attemptScript attempt with
      | .exc e => onExc e [FetchEv.acquire, FetchEv.request req]
      | .resp status text body =>
          if httpxRaisesForStatus status then
            onExc (Exc.httpStatus status text)
              [FetchEv.acquire, FetchEv.request req]
          else
            let result := processResponseBody ep.response_path body
            let (result, pageReqs) :=
              match ep.pagination with
              | some _ =>
                  let (items, reqs) :=
                    handlePagination c ep result params pageScript
                  (PyVal.list items, reqs)
              | Option.none => (result, [])
            ([FetchEv.acquire, FetchEv.request req,
              FetchEv.updateFromResponse status]
               ++ pageReqs.map FetchEv.pageRequest,
             some result, lastExc)

/-- Embedding of `ApiConnector.fetch_data` (connector.py lines
889-985): prepare the request once, run up to `retry_count` attempts
with linear backoff sleeps, and on exhaustion raise the structured
error built from the last exception (or the unexpected-state error
when `retry_count` is zero). -/
def fetchData (c : Connector) (ep : EndpointCfg)
    (params : Option (List (String × PyVal)))
    (attemptScript : Nat → AttemptResult)
    (pageScript : List (Option PyVal)) : List FetchEv × FetchOutcome :=
  let req := prepareRequest c ep params
  let (evs, r, lastExc) :=
    fetchAttempts c ep params req attemptScript pageScript c.retry_count 1
      Option.none
  match r with
  | some v => (evs, .ok v)
  | Option.none =>
      match lastExc with
      | some e => (evs, .error (mkFetchError ep.name req params e))
      | Option.none =>
          (evs, .error
            { message := "Unexpected state fetching data from " ++ ep.name
              error_category := ErrorCategory.UNKNOWN
              status_code := some 0 })

/-- The `ApiLinkerError` raised by single-item `send_data` after retry
exhaustion (connector.py lines 1156-1164). -/
def mkSendError (name : String) (req : Request) (e : Exc) :
    ApiLinkerError :=
  let (cat, code) := categorizeError e
  { message := "Failed to send data to " ++ name ++ ": " ++ excStr e
    error_category := cat
    status_code := code
    response_body := truncatedBody e
    request_url := some req.url
    request_method := some req.method
    additional_context := .dict [("endpoint", .str name)] }

/-- One round of the single-item `send_data` retry loop (lines
1106-1139): same retry/backoff shape as `fetch_data`, but a success
returns `response.json() if response.content else {}` wrapped in a
`{"success": True, "result": ...}` dict and performs no limiter
update or response processing. -/
def sendAttempts (c : Connector) (req : Request)
    (attemptScript : Nat → AttemptResult) :
    Nat → Nat → Option Exc → List FetchEv × Option PyVal × Option Exc
  | 0, _, lastExc => ([], Option.none, lastExc)
  | left + 1, attempt, lastExc =>
      let onExc : Exc → List FetchEv × Option PyVal × Option Exc :=
        fun e =>
          if attempt < c.retry_count then
            let (evs, r, l2) :=
              sendAttempts c req attemptScript left (attempt + 1) (some e)
            ([FetchEv.acquire, FetchEv.request req,
              FetchEv.sleep (c.retry_delay * (attempt : ℚ))] ++ evs, r, l2)
          else
            let (evs, r, l2) :=
              sendAttempts c req attemptScript left (attempt + 1) (some e)
            ([FetchEv.acquire, FetchEv.request req] ++ evs, r, l2)
      match attemptScript attempt with
      | .exc e => onExc e
      | .resp status text body =>
          if httpxRaisesForStatus status then
            onExc (Exc.httpStatus status text)
          else
            let result := if text == "" then PyVal.dict [] else body
            ([FetchEv.acquire, FetchEv.request req],
             some (PyVal.dict
               [("success", .bool true), ("result", result)]), lastExc)

/-- Embedding of single-item `ApiConnector.send_data` (connector.py
lines 1101-1167): retry loop, then the structured error from the last
exception, or the `{"success": False, "error": "Unknown error"}`
fallthrough value when no attempt ran. -/
def sendDataSingle (c : Connector) (ep : EndpointCfg)
    (attemptScript : Nat → AttemptResult) : List FetchEv × FetchOutcome :=
  let req := prepareRequest c ep Option.none
  let (evs, r, lastExc) :=
    sendAttempts c req attemptScript c.retry_count 1 Option.none
  match r with
  | some v => (evs, .ok v)
  | Option.none =>
      match lastExc with
      | some e => (evs, .error (mkSendError ep.name req e))
      | Option.none =>
          (evs, .ok (PyVal.dict
            [("success", .bool false), ("error", .str "Unknown error")]))

/-- Embedding of `ApiConnector._decode_sse_data` (connector.py lines
455-475).  `jsonParse` models the external `json.loads`: `some v` when
the payload parses as JSON, `none` when it raises. -/
def decodeSseData (jsonParse : String → Option PyVal) (raw_data : String)
    (decode_json : Bool) : PyVal :=
  if !decode_json then .str raw_data
  else if pyStrip raw_data == "" then .str raw_data
  else
    match jsonParse raw_data with
    | some v => v
    | Option.none => .str raw_data

/-- Field accumulator of `_parse_sse_event`: the four locals built up
by the `for line in raw_lines` loop. -/
structure ParseAcc where
  event_id : Option String := Option.none
  event_name : String := "message"
  data_lines : List String := []
  retry_ms : Option Int := Option.none
deriving Repr

/-- One iteration of the `_parse_sse_event` line loop (connector.py
lines 499-525): skip comment lines, split `field: value` at the first
colon with one leading space stripped from the value, then update the
accumulator for the `event`/`data`/`id`/`retry` fields (ids containing
NUL are ignored, malformed or negative retry values are ignored). -/
def parseSseLine (acc : ParseAcc) (line : String) : ParseAcc :=
  if pyStartsWithChar line ':' then acc
  else
    let (field, value) :=
      if pyContainsChar line ':' then
        match pySplitFirst line ':' with
        | some (f, v) => (f, if pyStartsWithChar v ' ' then pyDropFirst v else v)
        | Option.none => (line, "")
      else (line, "")
    if field == "event" then
      { acc with event_name := if value == "" then "message" else value }
    else if field == "data" then
      { acc with data_lines := acc.data_lines ++ [value] }
    else if field == "id" then
      if !pyContainsChar value '\x00' then { acc with event_id := some value }
      else acc
    else if field == "retry" then
      match pyToInt value with
      | some n => if 0 ≤ n then { acc with retry_ms := some n } else acc
      | Option.none => acc
    else acc

/-- The whole `_parse_sse_event` field-scanning loop. -/
def parseFields (raw_lines : List String) : ParseAcc :=
  raw_lines.foldl parseSseLine {}

/-- The newline-joined data payload of a block
(`"\n".join(data_lines)`). -/
def joinedData (raw_lines : List String) : String :=
  String.intercalate "\n" (parseFields raw_lines).data_lines

/-- `Option String` to the `id` entry of the event dict. -/
def optStrVal : Option String → PyVal
  | some s => .str s
  | Option.none => PyVal.none

/-- `Option Int` to the `retry` entry of the event dict. -/
def optIntVal : Option Int → PyVal
  | some n => .int n
  | Option.none => PyVal.none

/-- Embedding of `ApiConnector._parse_sse_event` (connector.py lines
477-539): scan the block's lines, drop blocks carrying neither data
nor retry nor id, and otherwise build the event dict including the
transient `has_data` flag. -/
def parseSseEvent (jsonParse : String → Option PyVal)
    (raw_lines : List String) (decode_json : Bool) :
    Option (List (String × PyVal)) :=
  if raw_lines.isEmpty then Option.none
  else if !(!(parseFields raw_lines).data_lines.isEmpty)
      && (parseFields raw_lines).retry_ms.isNone
      && (parseFields raw_lines).event_id.isNone then
    Option.none
  else
    some
      [("id", optStrVal (parseFields raw_lines).event_id),
       ("event", .str (parseFields raw_lines).event_name),
       ("data",
         if !(parseFields raw_lines).data_lines.isEmpty then
           decodeSseData jsonParse
             (String.intercalate "\n" (parseFields raw_lines).data_lines)
             decode_json
         else PyVal.none),
       ("retry", optIntVal (parseFields raw_lines).retry_ms),
       ("raw_data",
         .str (String.intercalate "\n" (parseFields raw_lines).data_lines)),
       ("has_data", .bool (!(parseFields raw_lines).data_lines.isEmpty))]

/-- Embedding of `ApiConnector._build_sse_request` (connector.py lines
541-559): the prepared request with SSE headers `setdefault`-ed in and
the `Last-Event-ID` header added when a prior id is known. -/
def buildSseRequest (c : Connector) (ep : EndpointCfg)
    (params : Option (List (String × PyVal)))
    (last_event_id : Option String) : Request :=
  let request := prepareRequest c ep params
  let headers := dictSetDefault request.headers "Accept" "text/event-stream"
  let headers := dictSetDefault headers "Cache-Control" "no-cache"
  let headers :=
    match last_event_id with
    | some lei =>
        if lei != "" then dictSet headers "Last-Event-ID" lei else headers
    | Option.none => headers
  { request with headers := headers }

/-- The `ApiLinkerError` raised by `_raise_sse_error` (connector.py
lines 561-581). -/
def sseError (name : String) (req : Request) (e : Exc) : ApiLinkerError :=
  let (cat, code) := categorizeError e
  { message := "Failed to stream SSE from " ++ name ++ ": " ++ excStr e
    error_category := cat
    status_code := code
    response_body := truncatedBody e
    request_url := some req.url
    request_method := some req.method
    additional_context := .dict [("endpoint", .str name)] }

/-- The options `stream_sse` runs with after its configuration
prologue. -/
structure StreamOptions where
  max_events : Option Int
  reconnect : Bool
  reconnect_delay : ℚ
  max_reconnect_attempts : Option Int
  read_timeout : ℚ
  decode_json : Bool
deriving Repr

/-- Embedding of the `stream_sse` configuration prologue (connector.py
lines 616-636): each option resolved from its explicit call argument
and the endpoint `sse` dict.  `max_events` and
`max_reconnect_attempts` use the call argument unless it is `None`;
`reconnect`, `reconnect_delay` and `decode_json` use
`sse_config.get(key, call_argument)`; `read_timeout` falls back from
the call argument to the config to the connector timeout. -/
def resolveStreamOptions (timeout : ℚ) (sse : Option SSEDict)
    (callMaxEvents : Option Int) (callReconnect : Bool)
    (callReconnectDelay : ℚ) (callMaxReconnectAttempts : Option Int)
    (callReadTimeout : Option ℚ) (callDecodeJson : Bool) : StreamOptions :=
  let cfg := sse.getD {}
  { max_events :=
      match callMaxEvents with
      | some v => some v
      | Option.none => cfg.max_events
    reconnect := cfg.reconnect.getD callReconnect
    reconnect_delay := cfg.reconnect_delay.getD callReconnectDelay
    max_reconnect_attempts :=
      match callMaxReconnectAttempts with
      | some v => some v
      | Option.none => cfg.max_reconnect_attempts
    read_timeout :=
      match callReadTimeout with
      | some v => v
      | Option.none =>
          match cfg.read_timeout with
          | some v => v
          | Option.none => timeout
    decode_json := cfg.decode_json.getD callDecodeJson }

/-- Mutable per-stream state of one `stream_sse` invocation:
`reconnect_attempts`, `received_events`, `last_event_id` and
`effective_reconnect_delay`. -/
structure StreamState where
  reconnect_attempts : Nat := 0
  received_events : Nat := 0
  last_event_id : Option String := Option.none
  effective_delay : ℚ := 0
deriving Repr

/-- The `isinstance(retry_hint, int)` test together with the value it
sees (`bool` being an `int` subclass in Python). -/
def pyIntOfVal : PyVal → Option Int
  | .int n => some n
  | .bool b => some (if b then 1 else 0)
  | _ => Option.none

/-- Embedding of the `_dispatch_event` closure of `stream_sse`
(connector.py lines 670-691): update `effective_reconnect_delay` from
a `retry` hint (milliseconds to seconds, floored at 0) and
`last_event_id` from a truthy `id`, then either drop the block
(`has_data` falsy) or pop the `has_data` key, count the event and
hand it out for emission. -/
def dispatchEvent (event : List (String × PyVal)) (st : StreamState) :
    StreamState × Option (List (String × PyVal)) :=
  let st :=
    match pyIntOfVal ((dictGet event "retry").getD PyVal.none) with
    | some n => { st with effective_delay := max 0 ((n : ℚ) / 1000) }
    | Option.none => st
  let st :=
    match dictGet event "id" with
    | some v =>
        if pyTruthy v then { st with last_event_id := some (pyStr v) } else st
    | Option.none => st
  if pyTruthy ((dictGet event "has_data").getD PyVal.none) then
    ({ st with received_events := st.received_events + 1 },
     some (event.filter (fun kv => kv.1 != "has_data")))
  else (st, Option.none)

/-- The `max_events is not None and received_events >= max_events`
stop test. -/
def maxReached (opts : StreamOptions) (st : StreamState) : Bool :=
  match opts.max_events with
  | some m => (st.received_events : Int) ≥ m
  | Option.none => false

/-- Python `raw_line.rstrip("\r")`. -/
def rstripCR (s : String) : String :=
  String.mk ((s.data.reverse.dropWhile (fun c => c == '\x0d')).reverse)

/-- Observable actions of one `stream_sse` invocation: limiter
acquisition, a (re)connection with the `Last-Event-ID` it would
resume from, the limiter update with the response status, an event
yielded to the caller, and a reconnect-backoff sleep. -/
inductive StreamEv where
  | acquire
  | connect (lastEventId : Option String)
  | updateFromResponse (status : Nat)
  | yield (event : List (String × PyVal))
  | sleep (t : ℚ)
deriving Repr

/-- How a `stream_sse` run ends: a normal generator return, a raised
structured error, or the scripted world running out of connections
(the run would go on). -/
inductive StreamTerminal where
  | returned
  | raised (e : ApiLinkerError)
  | scriptEnded
deriving Repr

/-- The line loop of one open SSE connection (connector.py lines
693-716): accumulate lines into the pending block, parse and dispatch
at each blank line, and stop the whole generator when `max_events`
dispatched events are reached.  Returns the emitted yields, the
updated state, the unterminated pending block, and whether the
generator returned early. -/
def processLines (jsonParse : String → Option PyVal)
    (opts : StreamOptions) :
    List String → List String → StreamState →
    List StreamEv × StreamState × List String × Bool
  | [], pending, st => ([], st, pending, false)
  | raw_line :: rest, pending, st =>
      let line := rstripCR raw_line
      if line == "" then
        match parseSseEvent jsonParse pending opts.decode_json with
        | Option.none => processLines jsonParse opts rest [] st
        | some parsed =>
            match dispatchEvent parsed st with
            | (st2, Option.none) => processLines jsonParse opts rest [] st2
            | (st2, some ev) =>
                if maxReached opts st2 then ([.yield ev], st2, [], true)
                else
                  let (evs, st3, pend, early) :=
                    processLines jsonParse opts rest [] st2
                  (.yield ev :: evs, st3, pend, early)
      else processLines jsonParse opts rest (pending ++ [line]) st

/-- The trailing-block flush on connection close (connector.py lines
718-731): parse and dispatch the unterminated pending block the same
way, reporting early generator return when `max_events` is hit. -/
def flushTrailing (jsonParse : String → Option PyVal)
    (opts : StreamOptions) (pending : List String) (st : StreamState) :
    List StreamEv × StreamState × Bool :=
  if pending.isEmpty then ([], st, false)
  else
    match parseSseEvent jsonParse pending opts.decode_json with
    | Option.none => ([], st, false)
    | some parsed =>
        match dispatchEvent parsed st with
        | (st2, Option.none) => ([], st2, false)
        | (st2, some ev) => ([.yield ev], st2, maxReached opts st2)

/-- The `reconnect_attempts > max_reconnect_attempts` exhaustion
test. -/
def attemptsExceeded (opts : StreamOptions) (attempts : Nat) : Bool :=
  match opts.max_reconnect_attempts with
  | some m => (attempts : Int) > m
  | Option.none => false

/-- Scripted outcome of one `client.stream` connection: an exception
while opening the stream, or an open response with its HTTP status,
raw text (for error bodies), the streamed lines, and an optional
exception interrupting the stream after those lines. -/
inductive ConnOutcome where
  | exc (e : Exc)
  | stream (status : Nat) (text : String) (lines : List String)
      (endExc : Option Exc)
deriving Repr

/-- The shared reconnect decision of `stream_sse` (connector.py lines
733-742 and 754-763): `none` when the generator must stop feeding the
loop (reconnect disabled, or the incremented attempt counter exceeds
`max_reconnect_attempts`), otherwise the state with the counter
incremented, the loop then sleeping and reconnecting. -/
def reconnectDecision (opts : StreamOptions) (st : StreamState) :
    Option StreamState :=
  if !opts.reconnect then Option.none
  else if attemptsExceeded opts (st.reconnect_attempts + 1) then
    Option.none
  else some { st with reconnect_attempts := st.reconnect_attempts + 1 }

/-- The per-connection 2xx processing: run the line loop, then the
trailing flush; returns the yielded events, the final state and
whether `max_events` forced an early generator return. -/
def connResult (jsonParse : String → Option PyVal)
    (opts : StreamOptions) (lines : List String) (st : StreamState) :
    List StreamEv × StreamState × Bool :=
  match processLines jsonParse opts lines [] st with
  | (evs1, st2, pending, early1) =>
      if early1 then (evs1, st2, true)
      else
        match flushTrailing jsonParse opts pending st2 with
        | (evs2, st3, early2) => (evs1 ++ evs2, st3, early2)

/-- Embedding of the `while True:` connection loop of `stream_sse`
(connector.py lines 643-771), recursing over the scripted
connections.  Exceptions (including non-2xx statuses raised inside
the `with` block) feed the reconnect logic of lines 733-752: raise
when `reconnectDecision` stops, else sleep the effective delay and
reconnect; clean closes feed lines 754-771: the same decision, but
exhaustion returns silently. -/
def runStreamGo (c : Connector) (ep : EndpointCfg)
    (jsonParse : String → Option PyVal) (opts : StreamOptions)
    (params : Option (List (String × PyVal))) :
    List ConnOutcome → StreamState → List StreamEv × StreamTerminal
  | [], _ => ([], .scriptEnded)
  | conn :: rest, st =>
      match conn with
      | .exc e =>
          match reconnectDecision opts st with
          | Option.none =>
              ([StreamEv.acquire, StreamEv.connect st.last_event_id],
               .raised (sseError ep.name
                 (buildSseRequest c ep params st.last_event_id) e))
          | some st2 =>
              ([StreamEv.acquire, StreamEv.connect st.last_event_id]
                 ++ StreamEv.sleep st.effective_delay ::
                   (runStreamGo c ep jsonParse opts params rest st2).1,
               (runStreamGo c ep jsonParse opts params rest st2).2)
      | .stream status text lines endExc =>
          if httpxRaisesForStatus status then
            match reconnectDecision opts st with
            | Option.none =>
                ([StreamEv.acquire, StreamEv.connect st.last_event_id,
                  StreamEv.updateFromResponse status],
                 .raised (sseError ep.name
                   (buildSseRequest c ep params st.last_event_id)
                   (Exc.httpStatus status text)))
            | some st2 =>
                ([StreamEv.acquire, StreamEv.connect st.last_event_id,
                  StreamEv.updateFromResponse status]
                   ++ StreamEv.sleep st.effective_delay ::
                     (runStreamGo c ep jsonParse opts params rest st2).1,
                 (runStreamGo c ep jsonParse opts params rest st2).2)
          else
            match connResult jsonParse opts lines st with
            | (evs, st3, early) =>
                if early then
                  ([StreamEv.acquire, StreamEv.connect st.last_event_id,
                    StreamEv.updateFromResponse status] ++ evs,
                   .returned)
                else
                  match endExc with
                  | some e =>
                      match reconnectDecision opts st3 with
                      | Option.none =>
                          ([StreamEv.acquire,
                            StreamEv.connect st.last_event_id,
                            StreamEv.updateFromResponse status] ++ evs,
                           .raised (sseError ep.name
                             (buildSseRequest c ep params
                               st.last_event_id) e))
                      | some st4 =>
                          ([StreamEv.acquire,
                            StreamEv.connect st.last_event_id,
                            StreamEv.updateFromResponse status] ++ evs
                             ++ StreamEv.sleep st3.effective_delay ::
                               (runStreamGo c ep jsonParse opts params
                                 rest st4).1,
                           (runStreamGo c ep jsonParse opts params rest
                             st4).2)
                  | Option.none =>
                      match reconnectDecision opts st3 with
                      | Option.none =>
                          ([StreamEv.acquire,
                            StreamEv.connect st.last_event_id,
                            StreamEv.updateFromResponse status] ++ evs,
                           .returned)
                      | some st4 =>
                          ([StreamEv.acquire,
                            StreamEv.connect st.last_event_id,
                            StreamEv.updateFromResponse status] ++ evs
                             ++ StreamEv.sleep st3.effective_delay ::
                               (runStreamGo c ep jsonParse opts params
                                 rest st4).1,
                           (runStreamGo c ep jsonParse opts params rest
                             st4).2)

/-- Embedding of `ApiConnector.stream_sse` (connector.py lines
583-771): resolve options, then run the connection loop from the
fresh per-invocation state (`effective_reconnect_delay` starts at
`max(0.0, reconnect_delay)`). -/
def runStreamSse (c : Connector) (ep : EndpointCfg)
    (jsonParse : String → Option PyVal)
    (params : Option (List (String × PyVal)))
    (callMaxEvents : Option Int) (callReconnect : Bool)
    (callReconnectDelay : ℚ) (callMaxReconnectAttempts : Option Int)
    (callReadTimeout : Option ℚ) (callDecodeJson : Bool)
    (script : List ConnOutcome) : List StreamEv × StreamTerminal :=
  let opts := resolveStreamOptions c.timeout ep.sse callMaxEvents
    callReconnect callReconnectDelay callMaxReconnectAttempts
    callReadTimeout callDecodeJson
  runStreamGo c ep jsonParse opts params script
    { reconnect_attempts := 0
      received_events := 0
      last_event_id := Option.none
      effective_delay := max 0 opts.reconnect_delay }

/-- The options `consume_sse` runs with after validation. -/
structure ConsumeOptions where
  max_events : Option Int
  chunk_size : Int
  backpressure_buffer_size : Int
  drop_policy : String
deriving Repr

/-- Embedding of the `consume_sse` configuration prologue and
validation (connector.py lines 807-824): `max_events` uses the call
argument unless `None`; `chunk_size`, `backpressure_buffer_size` and
`drop_policy` use `sse_config.get(key, call_argument)` (so the config
overrides the call argument), with `drop_policy` lowercased; invalid
values raise a `ValueError`, modelled as `Except.error`. -/
def resolveConsumeOptions (sse : Option SSEDict)
    (callMaxEvents : Option Int) (callChunk : Int) (callBuf : Int)
    (callPolicy : String) : Except String ConsumeOptions :=
  let cfg := sse.getD {}
  let max_events :=
    match callMaxEvents with
    | some v => some v
    | Option.none => cfg.max_events
  let chunk := cfg.chunk_size.getD callChunk
  let buf := cfg.backpressure_buffer_size.getD callBuf
  let policy := pyLower (cfg.drop_policy.getD callPolicy)
  if chunk ≤ 0 then .error "chunk_size must be > 0"
  else if buf ≤ 0 then .error "backpressure_buffer_size must be > 0"
  else if policy != "block" && policy != "drop_oldest" then
    .error "drop_policy must be block or drop_oldest"
  else
    .ok
      { max_events := max_events
        chunk_size := chunk
        backpressure_buffer_size := buf
        drop_policy := policy }

/-- Mutable state of one `consume_sse` invocation: the bounded buffer
(front of the list = head of the deque) and the counters/results the
`_flush` closure updates. -/
structure ConsumeState where
  buffer : List PyVal := []
  dropped : Nat := 0
  processed : Nat := 0
  chunks : Nat := 0
  results : List PyVal := []
deriving Repr

/-- Embedding of the `_flush` closure of `consume_sse` (connector.py
lines 832-854): pop chunks of at most `chunk_size` events off the
front of the buffer, record `processor(chunk)` or the chunk itself,
and in non-force mode flush at most one chunk.  The fuel argument
bounds the recursion by the buffer length; every executed iteration
removes at least one event because `chunk_size` is validated
positive. -/
def flushGo (processor : Option (List PyVal → PyVal)) (chunk_size : Nat)
    (force : Bool) : Nat → ConsumeState → Bool → ConsumeState × Bool
  | 0, st, flushed => (st, flushed)
  | fuel + 1, st, flushed =>
      if st.buffer.isEmpty || (!force && st.buffer.length < chunk_size) then
        (st, flushed)
      else
        let current :=
          if st.buffer.length ≥ chunk_size then chunk_size
          else st.buffer.length
        let chunk := st.buffer.take current
        let st :=
          { st with
            buffer := st.buffer.drop current
            chunks := st.chunks + 1
            processed := st.processed + chunk.length
            results :=
              st.results
                ++ [match processor with
                    | some p => p chunk
                    | Option.none => .list chunk] }
        if !force then (st, true)
        else flushGo processor chunk_size force fuel st true

/-- The `_flush(force)` call with fuel set to the buffer length. -/
def flush (processor : Option (List PyVal → PyVal)) (chunk_size : Nat)
    (force : Bool) (st : ConsumeState) : ConsumeState × Bool :=
  flushGo processor chunk_size force st.buffer.length st false

/-- The `while len(buffer) >= backpressure_buffer_size:` admission
loop of `consume_sse` (connector.py lines 862-871): under
`drop_oldest`, drop one oldest event, count it and break; under
`block`, flush one chunk and re-check, force-flushing and breaking
when a single-chunk flush does nothing.  Fuel bounds the re-checking
iterations. -/
def backpressureGo (processor : Option (List PyVal → PyVal))
    (chunk_size buffer_size : Nat) (policy : String) :
    Nat → ConsumeState → ConsumeState
  | 0, st => st
  | fuel + 1, st =>
      if st.buffer.length < buffer_size then st
      else if policy == "drop_oldest" then
        match st.buffer with
        | [] => st
        | _ :: restBuf =>
            { st with buffer := restBuf, dropped := st.dropped + 1 }
      else
        let (st2, flushed) := flush processor chunk_size false st
        if !flushed then (flush processor chunk_size true st2).1
        else backpressureGo processor chunk_size buffer_size policy fuel st2

/-- The `for event in self.stream_sse(...)` loop of `consume_sse`
(connector.py lines 856-874): admit each event through the
backpressure loop, append it, then opportunistically flush one
chunk. -/
def consumeGo (processor : Option (List PyVal → PyVal))
    (chunk_size buffer_size : Nat) (policy : String) :
    List PyVal → ConsumeState → ConsumeState
  | [], st => st
  | event :: rest, st =>
      let st := backpressureGo processor chunk_size buffer_size policy
        (st.buffer.length + 1) st
      let st := { st with buffer := st.buffer ++ [event] }
      let st := (flush processor chunk_size false st).1
      consumeGo processor chunk_size buffer_size policy rest st

/-- The summary dict returned by `consume_sse`. -/
structure ConsumeSummary where
  success : Bool
  processed_events : Nat
  chunks_processed : Nat
  dropped_events : Nat
  chunk_size : Int
  buffer_max_size : Int
  results : List PyVal
deriving Repr

/-- Embedding of `ApiConnector.consume_sse` (connector.py lines
773-887) over the stream of events its inner `stream_sse` call
produces: validate options, run the consumption loop, force-flush the
trailing events and return the summary. -/
def consumeSse (sse : Option SSEDict) (callMaxEvents : Option Int)
    (callChunk : Int) (callBuf : Int) (callPolicy : String)
    (processor : Option (List PyVal → PyVal)) (events : List PyVal) :
    Except String ConsumeSummary :=
  match resolveConsumeOptions sse callMaxEvents callChunk callBuf
      callPolicy with
  | .error m => .error m
  | .ok opts =>
      let cs := opts.chunk_size.toNat
      let bs := opts.backpressure_buffer_size.toNat
      let st := consumeGo processor cs bs opts.drop_policy events {}
      let st := (flush processor cs true st).1
      .ok
        { success := true
          processed_events := st.processed
          chunks_processed := st.chunks
          dropped_events := st.dropped
          chunk_size := opts.chunk_size
          buffer_max_size := opts.backpressure_buffer_size
          results := st.results }

/-! Trace projections used by the theorems. -/

/-- Recognize the network-call events of a fetch/send trace. -/
def isRequestEv : FetchEv → Bool
  | .request _ => true
  | _ => false

/-- Recognize the pagination page-fetch events of a fetch trace. -/
def isPageRequestEv : FetchEv → Bool
  | .pageRequest _ => true
  | _ => false

/-- Recognize the limiter-update events of a fetch trace. -/
def isUpdateEv : FetchEv → Bool
  | .updateFromResponse _ => true
  | _ => false

/-- The sleep durations of a fetch/send trace, in order. -/
def fetchSleeps (evs : List FetchEv) : List ℚ :=
  evs.filterMap (fun ev =>
    match ev with
    | .sleep t => some t
    | _ => Option.none)

/-- Number of reconnect-backoff sleeps in a stream trace. -/
def streamSleepCount (evs : List StreamEv) : Nat :=
  evs.countP (fun ev =>
    match ev with
    | .sleep _ => true
    | _ => false)

/-- The events a stream trace yields to the caller, in order. -/
def streamYields (evs : List StreamEv) :
    List (List (String × PyVal)) :=
  evs.filterMap (fun ev =>
    match ev with
    | .yield e => some e
    | _ => Option.none)

/-! Shared concrete fixtures. -/

/-- A `json.loads` model that fails on every payload (adequate for
payloads that are not JSON). -/
def jpNone : String → Option PyVal := fun _ => Option.none

/-- A connector with explicit retry settings and otherwise default
configuration. -/
def cRetry (n : Nat) (d : ℚ) : Connector :=
  { base_url := "https://api.example.com", retry_count := n, retry_delay := d }

/-- A plain endpoint with no pagination, path or SSE configuration. -/
def epPlain : EndpointCfg := { name := "users", path := "/users" }

/-- The request `_prepare_request` builds for `epPlain` with no
auth, no default headers and no call params. -/
def reqPlain : Request :=
  { url := "/users", method := "GET", headers := [], params := [] }

/-- An SSE endpoint with an empty per-endpoint `sse` dict, like the
`events` endpoint of the repository's SSE tests. -/
def epSse : EndpointCfg := { name := "events", path := "/events", sse := some {} }

/-- An endpoint whose pagination config sets `data_path` and
`page_param` but no `next_page_path`. -/
def epPageCounter : EndpointCfg :=
  { name := "list", path := "/list",
    pagination := some { data_path := "items", page_param := "page" } }

/-- The `n`-th sample event fed to `consume_sse` in the backpressure
scenarios. -/
def sampleEvent (i : Int) : PyVal := .dict [("n", .int i)]

/-! Claim theorems. -/

/-- Claim C1: with pagination configured but no `next_page_path`, a
`fetch_data` call whose first response is a 2xx page of items — and
with further pages scripted to be available — returns only the first
page's items and performs no page request at all: the page-counter
branch of `_handle_pagination` is unreachable because `next_page`
stays `None` when `next_page_path` is unset, so the pagination loop
never runs.  This refutes the claimed incrementing page-counter walk
capped by `max_pages`. -/
theorem C1_pagination_without_next_page_path_fetches_single_page :
    fetchData (cRetry 3 1) epPageCounter Option.none
      (fun _ => .resp 200 "" (.dict [("items", .list [.dict [("a", .int 1)]])]))
      [some (.dict [("items", .list [.dict [("a", .int 2)]])]),
       some (.dict [("items", .list [.dict [("a", .int 3)]])])] =
      ([FetchEv.acquire,
        FetchEv.request (prepareRequest (cRetry 3 1) epPageCounter Option.none),
        FetchEv.updateFromResponse 200],
       .ok (.list [.dict [("a", .int 1)]]))
    ∧ ([FetchEv.acquire,
        FetchEv.request (prepareRequest (cRetry 3 1) epPageCounter Option.none),
        FetchEv.updateFromResponse 200].countP (fun ev => isPageRequestEv ev))
        = 0 := by
  exact ⟨rfl, rfl⟩

/-- Claim C3: with `response_path = "a.b"` and body
`{"a": {"x": 1}}`, the first segment resolves and the second is
missing, and `_process_response` returns the partially navigated
intermediate value `{"x": 1}` — not the original payload — because the
`current_data is not data` guard only detects that no step at all
succeeded.  When the very first segment is missing the original
payload is indeed returned unchanged. -/
theorem C3_partial_response_path_returns_intermediate :
    processResponseBody (some "a.b") (.dict [("a", .dict [("x", .int 1)])]) =
      .dict [("x", .int 1)]
    ∧ extractResponsePath (some "a.b") (.dict [("a", .dict [("x", .int 1)])]) =
      .dict [("x", .int 1)]
    ∧ PyVal.dict [("x", .int 1)] ≠ .dict [("a", .dict [("x", .int 1)])]
    ∧ extractResponsePath (some "zz.b") (.dict [("a", .dict [("x", .int 1)])]) =
      .dict [("a", .dict [("x", .int 1)])] := by
  refine ⟨rfl, rfl, ?_, rfl⟩
  intro h
  simp at h

/-- Claim C8: `consume_sse` with `drop_policy = "drop_oldest"`,
`backpressure_buffer_size = 2` and `chunk_size = 3`, fed the five
sequential events `n = 0..4`, drops exactly 3 events, processes
exactly 2 in exactly one chunk, and that single result chunk holds the
events `n = 3` and `n = 4` in order. -/
theorem C8_drop_oldest_scenario :
    consumeSse Option.none Option.none 3 2 "drop_oldest" Option.none
      [sampleEvent 0, sampleEvent 1, sampleEvent 2, sampleEvent 3,
       sampleEvent 4] =
    Except.ok
      { success := true
        processed_events := 2
        chunks_processed := 1
        dropped_events := 3
        chunk_size := 3
        buffer_max_size := 2
        results := [.list [sampleEvent 3, sampleEvent 4]] } := rfl

/-- Claim C2 counterexample: the explicitly supplied call argument
does not win for every option.  With `sse: {reconnect_delay: 5}` a
caller passing `reconnect_delay=2` streams with delay 5; with
`sse: {reconnect: true}` a caller passing `reconnect=False` streams
with reconnect on; with `sse: {chunk_size: 7}` a caller passing
`chunk_size=3` consumes in chunks of 7 — in each case the config
overrides the explicit call argument. -/
theorem C2_sse_config_overrides_explicit_call_args :
    (resolveStreamOptions 30 (some { reconnect_delay := some 5 })
      Option.none false 2 Option.none Option.none true).reconnect_delay = 5
    ∧ (5 : ℚ) ≠ 2
    ∧ (resolveStreamOptions 30 (some { reconnect := some true })
      Option.none false 2 Option.none Option.none true).reconnect = true
    ∧ true ≠ false
    ∧ resolveConsumeOptions (some { chunk_size := some 7 }) Option.none 3 2
        "block" =
      .ok { max_events := Option.none, chunk_size := 7,
            backpressure_buffer_size := 2, drop_policy := "block" } := by
  exact ⟨rfl, by norm_num, rfl, by decide, rfl⟩

/-- Claim C2 (amended): the precedence explicit call argument >
per-endpoint sse config > built-in default holds for `max_events`,
`max_reconnect_attempts` and `read_timeout` (the latter falling back
to the connector timeout); for `reconnect`, `reconnect_delay`,
`decode_json` and for consume's `chunk_size`,
`backpressure_buffer_size`, `drop_policy`, the per-endpoint sse config
value overrides any call argument, and the call argument (carrying
the built-in default) applies only when the config omits the
option. -/
theorem C2_option_precedence_amended
    (t : ℚ) (cfg : SSEDict) (me : Option Int) (r : Bool) (d : ℚ)
    (mra : Option Int) (rt : Option ℚ) (dj : Bool)
    (me2 : Option Int) (cc cb : Int) (cp : String) :
    (∀ v, me = some v →
      (resolveStreamOptions t (some cfg) me r d mra rt dj).max_events =
        some v)
    ∧ (me = Option.none →
      (resolveStreamOptions t (some cfg) me r d mra rt dj).max_events =
        cfg.max_events)
    ∧ (∀ v, mra = some v →
      (resolveStreamOptions t (some cfg) me r d mra rt
        dj).max_reconnect_attempts = some v)
    ∧ (mra = Option.none →
      (resolveStreamOptions t (some cfg) me r d mra rt
        dj).max_reconnect_attempts = cfg.max_reconnect_attempts)
    ∧ (∀ q, rt = some q →
      (resolveStreamOptions t (some cfg) me r d mra rt dj).read_timeout = q)
    ∧ (rt = Option.none → ∀ q, cfg.read_timeout = some q →
      (resolveStreamOptions t (some cfg) me r d mra rt dj).read_timeout = q)
    ∧ (rt = Option.none → cfg.read_timeout = Option.none →
      (resolveStreamOptions t (some cfg) me r d mra rt dj).read_timeout = t)
    ∧ (∀ b, cfg.reconnect = some b →
      (resolveStreamOptions t (some cfg) me r d mra rt dj).reconnect = b)
    ∧ (cfg.reconnect = Option.none →
      (resolveStreamOptions t (some cfg) me r d mra rt dj).reconnect = r)
    ∧ (∀ q, cfg.reconnect_delay = some q →
      (resolveStreamOptions t (some cfg) me r d mra rt dj).reconnect_delay =
        q)
    ∧ (cfg.reconnect_delay = Option.none →
      (resolveStreamOptions t (some cfg) me r d mra rt dj).reconnect_delay =
        d)
    ∧ (∀ b, cfg.decode_json = some b →
      (resolveStreamOptions t (some cfg) me r d mra rt dj).decode_json = b)
    ∧ (cfg.decode_json = Option.none →
      (resolveStreamOptions t (some cfg) me r d mra rt dj).decode_json = dj)
    ∧ (∀ o2 k, cfg.chunk_size = some k →
      resolveConsumeOptions (some cfg) me2 cc cb cp = .ok o2 →
        o2.chunk_size = k)
    ∧ (∀ o2, cfg.chunk_size = Option.none →
      resolveConsumeOptions (some cfg) me2 cc cb cp = .ok o2 →
        o2.chunk_size = cc)
    ∧ (∀ o2 k, cfg.backpressure_buffer_size = some k →
      resolveConsumeOptions (some cfg) me2 cc cb cp = .ok o2 →
        o2.backpressure_buffer_size = k)
    ∧ (∀ o2, cfg.backpressure_buffer_size = Option.none →
      resolveConsumeOptions (some cfg) me2 cc cb cp = .ok o2 →
        o2.backpressure_buffer_size = cb)
    ∧ (∀ o2 p, cfg.drop_policy = some p →
      resolveConsumeOptions (some cfg) me2 cc cb cp = .ok o2 →
        o2.drop_policy = pyLower p)
    ∧ (∀ o2, cfg.drop_policy = Option.none →
      resolveConsumeOptions (some cfg) me2 cc cb cp = .ok o2 →
        o2.drop_policy = pyLower cp) := by
  refine ⟨?_, ?_, ?_, ?_, ?_, ?_, ?_, ?_, ?_, ?_, ?_, ?_, ?_, ?_, ?_, ?_,
    ?_, ?_, ?_⟩
  · intro v h; subst h; rfl
  · intro h; subst h; rfl
  · intro v h; subst h; rfl
  · intro h; subst h; rfl
  · intro q h; subst h; rfl
  · intro h q h2; subst h
    simp [resolveStreamOptions, h2]
  · intro h h2; subst h
    simp [resolveStreamOptions, h2]
  · intro b h; simp [resolveStreamOptions, h]
  · intro h; simp [resolveStreamOptions, h]
  · intro q h; simp [resolveStreamOptions, h]
  · intro h; simp [resolveStreamOptions, h]
  · intro b h; simp [resolveStreamOptions, h]
  · intro h; simp [resolveStreamOptions, h]
  · intro o2 k h h2
    simp only [resolveConsumeOptions, Option.getD_some, Option.getD_none, h] at h2
    split_ifs at h2
    first
      | exact Except.noConfusion h2
      | (injection h2 with h3; subst h3; rfl)
  · intro o2 h h2
    simp only [resolveConsumeOptions, Option.getD_some, Option.getD_none, h] at h2
    split_ifs at h2
    first
      | exact Except.noConfusion h2
      | (injection h2 with h3; subst h3; rfl)
  · intro o2 k h h2
    simp only [resolveConsumeOptions, Option.getD_some, Option.getD_none, h] at h2
    split_ifs at h2
    first
      | exact Except.noConfusion h2
      | (injection h2 with h3; subst h3; rfl)
  · intro o2 h h2
    simp only [resolveConsumeOptions, Option.getD_some, Option.getD_none, h] at h2
    split_ifs at h2
    first
      | exact Except.noConfusion h2
      | (injection h2 with h3; subst h3; rfl)
  · intro o2 p h h2
    simp only [resolveConsumeOptions, Option.getD_some, Option.getD_none, h] at h2
    split_ifs at h2
    first
      | exact Except.noConfusion h2
      | (injection h2 with h3; subst h3; rfl)
  · intro o2 h h2
    simp only [resolveConsumeOptions, Option.getD_some, Option.getD_none, h] at h2
    split_ifs at h2
    first
      | exact Except.noConfusion h2
      | (injection h2 with h3; subst h3; rfl)

/-- Fully populated sse config used to witness the config-side
branches of the precedence theorem. -/
def cfgFull : SSEDict :=
  { max_events := some 9, reconnect := some true,
    reconnect_delay := some 5, max_reconnect_attempts := some 4,
    read_timeout := some 7, decode_json := some false,
    chunk_size := some 7, backpressure_buffer_size := some 11,
    drop_policy := some "BLOCK" }

/-- Witness for `C2_option_precedence_amended`: every hypothesis is
discharged at concrete inputs, applying the theorem once with all
call arguments supplied and a full config, and once with absent call
arguments and an empty config. -/
theorem C2_option_precedence_amended_witness :
    (resolveStreamOptions 30 (some cfgFull) (some 2) false 2 (some 3)
      (some 1) true).max_events = some 2
    ∧ (resolveStreamOptions 30 (some cfgFull) (some 2) false 2 (some 3)
      (some 1) true).max_reconnect_attempts = some 3
    ∧ (resolveStreamOptions 30 (some cfgFull) (some 2) false 2 (some 3)
      (some 1) true).read_timeout = 1
    ∧ (resolveStreamOptions 30 (some cfgFull) (some 2) false 2 (some 3)
      (some 1) true).reconnect = true
    ∧ (resolveStreamOptions 30 (some cfgFull) (some 2) false 2 (some 3)
      (some 1) true).reconnect_delay = 5
    ∧ (resolveStreamOptions 30 (some cfgFull) (some 2) false 2 (some 3)
      (some 1) true).decode_json = false
    ∧ (resolveStreamOptions 30 (some ({} : SSEDict)) Option.none true 2
      Option.none Option.none true).max_events = Option.none
    ∧ (resolveStreamOptions 30 (some ({} : SSEDict)) Option.none true 2
      Option.none Option.none true).max_reconnect_attempts = Option.none
    ∧ (resolveStreamOptions 30 (some ({} : SSEDict)) Option.none true 2
      Option.none Option.none true).read_timeout = 30
    ∧ (resolveStreamOptions 30 (some ({} : SSEDict)) Option.none true 2
      Option.none Option.none true).reconnect = true
    ∧ (resolveStreamOptions 30 (some ({} : SSEDict)) Option.none true 2
      Option.none Option.none true).reconnect_delay = 2
    ∧ (resolveStreamOptions 30 (some ({} : SSEDict)) Option.none true 2
      Option.none Option.none true).decode_json = true
    ∧ ({ max_events := some 9, chunk_size := 7,
         backpressure_buffer_size := 11,
         drop_policy := "block" } : ConsumeOptions).chunk_size = 7
    ∧ ({ max_events := some 9, chunk_size := 7,
         backpressure_buffer_size := 11,
         drop_policy := "block" } : ConsumeOptions).backpressure_buffer_size
        = 11
    ∧ ({ max_events := some 9, chunk_size := 7,
         backpressure_buffer_size := 11,
         drop_policy := "block" } : ConsumeOptions).drop_policy =
        pyLower "BLOCK"
    ∧ ({ max_events := Option.none, chunk_size := 3,
         backpressure_buffer_size := 2,
         drop_policy := "drop_oldest" } : ConsumeOptions).chunk_size = 3
    ∧ ({ max_events := Option.none, chunk_size := 3,
         backpressure_buffer_size := 2,
         drop_policy := "drop_oldest" } : ConsumeOptions).backpressure_buffer_size
        = 2
    ∧ ({ max_events := Option.none, chunk_size := 3,
         backpressure_buffer_size := 2,
         drop_policy := "drop_oldest" } : ConsumeOptions).drop_policy =
        pyLower "drop_oldest" := by
  have hFull := C2_option_precedence_amended 30 cfgFull (some 2) false 2
    (some 3) (some 1) true Option.none 3 2 "block"
  have hEmpty := C2_option_precedence_amended 30 {} Option.none true 2
    Option.none Option.none true Option.none 3 2 "drop_oldest"
  refine ⟨hFull.1 2 rfl, (hFull.2.2).1 3 rfl, (hFull.2.2.2.2).1 1 rfl,
    (hFull.2.2.2.2.2.2.2).1 true rfl, (hFull.2.2.2.2.2.2.2.2.2).1 5 rfl,
    (hFull.2.2.2.2.2.2.2.2.2.2.2).1 false rfl,
    (hEmpty.2).1 rfl, (hEmpty.2.2.2).1 rfl, (hEmpty.2.2.2.2.2.2).1 rfl rfl,
    (hEmpty.2.2.2.2.2.2.2.2).1 rfl, (hEmpty.2.2.2.2.2.2.2.2.2.2).1 rfl,
    (hEmpty.2.2.2.2.2.2.2.2.2.2.2.2).1 rfl,
    (hFull.2.2.2.2.2.2.2.2.2.2.2.2.2).1
      { max_events := some 9, chunk_size := 7,
        backpressure_buffer_size := 11, drop_policy := "block" } 7 rfl rfl,
    (hFull.2.2.2.2.2.2.2.2.2.2.2.2.2.2.2).1
      { max_events := some 9, chunk_size := 7,
        backpressure_buffer_size := 11, drop_policy := "block" } 11 rfl rfl,
    (hFull.2.2.2.2.2.2.2.2.2.2.2.2.2.2.2.2.2).1
      { max_events := some 9, chunk_size := 7,
        backpressure_buffer_size := 11, drop_policy := "block" } "BLOCK"
      rfl rfl,
    (hEmpty.2.2.2.2.2.2.2.2.2.2.2.2.2.2).1
      { max_events := Option.none, chunk_size := 3,
        backpressure_buffer_size := 2, drop_policy := "drop_oldest" } rfl
      rfl,
    (hEmpty.2.2.2.2.2.2.2.2.2.2.2.2.2.2.2.2).1
      { max_events := Option.none, chunk_size := 3,
        backpressure_buffer_size := 2, drop_policy := "drop_oldest" } rfl
      rfl,
    (hEmpty.2.2.2.2.2.2.2.2.2.2.2.2.2.2.2.2.2.2)
      { max_events := Option.none, chunk_size := 3,
        backpressure_buffer_size := 2, drop_policy := "drop_oldest" } rfl
      rfl⟩

/-- The plain fixture request is what `_prepare_request` builds for
`epPlain`, independently of the retry settings. -/
theorem prepareRequest_plain_eq (n : Nat) (d : ℚ) :
    prepareRequest (cRetry n d) epPlain Option.none = reqPlain := rfl

/-- Projection of the retry-count setting of the fixture connector. -/
theorem cRetry_retry_count (n : Nat) (d : ℚ) :
    (cRetry n d).retry_count = n := rfl

/-- Projection of the retry-delay setting of the fixture connector. -/
theorem cRetry_retry_delay (n : Nat) (d : ℚ) :
    (cRetry n d).retry_delay = d := rfl

/-- Projections of the plain endpoint fixture. -/
theorem epPlain_fields :
    epPlain.name = "users" ∧ epPlain.response_path = Option.none
      ∧ epPlain.pagination = Option.none := ⟨rfl, rfl, rfl⟩

/-- Claim C4 counterexample: a `fetch_data` call whose single attempt
receives a 500 response raises the categorized error with a trace
containing no limiter-update event at all: `fetch_data` calls
`raise_for_status` on the raw response before `_process_response`, so
`update_from_response` never sees the failed response's headers. -/
theorem C4_non2xx_fetch_raises_without_limiter_update :
    fetchData (cRetry 1 1) epPlain Option.none
      (fun _ => .resp 500 "Server Error" (.dict [])) [] =
      ([FetchEv.acquire, FetchEv.request reqPlain],
       .error (mkFetchError "users" reqPlain Option.none
         (.httpStatus 500 "Server Error")))
    ∧ ([FetchEv.acquire, FetchEv.request reqPlain].countP
        (fun ev => isUpdateEv ev)) = 0
    ∧ (mkFetchError "users" reqPlain Option.none
        (.httpStatus 500 "Server Error")).status_code = some 500 := by
  exact ⟨rfl, rfl, rfl⟩

/-- Claim C4 (amended): in `fetch_data` the limiter update from
response headers happens only for responses whose status passes
`raise_for_status` — the 2xx range under the pinned httpx
(`httpx>=0.23.0`): such responses produce a trace with the update
event between the network call and the returned value, while any
non-2xx response (1xx, 3xx, 4xx and 5xx alike) raises out of the
attempt with no update event, because `fetch_data` checks the status
on the raw response before `_process_response` (where the
update-then-check ordering lives) is ever reached. -/
theorem C4_limiter_update_gated_by_status (status : Nat) (text : String)
    (body : PyVal) :
    (httpxRaisesForStatus status = true →
      fetchData (cRetry 1 1) epPlain Option.none
        (fun _ => .resp status text body) [] =
        ([FetchEv.acquire, FetchEv.request reqPlain],
         .error (mkFetchError "users" reqPlain Option.none
           (.httpStatus status text))))
    ∧ (httpxRaisesForStatus status = false →
      fetchData (cRetry 1 1) epPlain Option.none
        (fun _ => .resp status text body) [] =
        ([FetchEv.acquire, FetchEv.request reqPlain,
          FetchEv.updateFromResponse status],
         .ok (wrapResult body))) := by
  constructor
  · intro h
    simp [fetchData, fetchAttempts, h, prepareRequest_plain_eq,
      cRetry_retry_count, epPlain_fields.1]
  · intro h
    simp [fetchData, fetchAttempts, h, prepareRequest_plain_eq,
      cRetry_retry_count, epPlain_fields.1, epPlain_fields.2.1,
      epPlain_fields.2.2, processResponseBody, extractResponsePath]

/-- Witness for `C4_limiter_update_gated_by_status` at a 301 redirect
(non-2xx: the attempt raises with no limiter update) and at a 200
response (update present). -/
theorem C4_limiter_update_gated_by_status_witness :
    (fetchData (cRetry 1 1) epPlain Option.none
      (fun _ => .resp 301 "Moved Permanently" (.dict [])) [] =
      ([FetchEv.acquire, FetchEv.request reqPlain],
       .error (mkFetchError "users" reqPlain Option.none
         (.httpStatus 301 "Moved Permanently"))))
    ∧ (fetchData (cRetry 1 1) epPlain Option.none
      (fun _ => .resp 200 "{}" (.dict [])) [] =
      ([FetchEv.acquire, FetchEv.request reqPlain,
        FetchEv.updateFromResponse 200],
       .ok (wrapResult (.dict [])))) :=
  ⟨(C4_limiter_update_gated_by_status 301 "Moved Permanently"
      (.dict [])).1 (by decide),
   (C4_limiter_update_gated_by_status 200 "{}" (.dict [])).2
     (by decide)⟩

/-- Closed form of the trace a retry loop produces when every attempt
fails: per attempt, limiter acquisition and a network call, followed
by a linear-backoff sleep whenever another attempt remains
(`attempt < retry_count`). -/
def expectedRetryTrace (rc : Nat) (d : ℚ) (req : Request) :
    Nat → Nat → List FetchEv
  | 0, _ => []
  | left + 1, attempt =>
      [FetchEv.acquire, FetchEv.request req]
        ++ (if attempt < rc then [FetchEv.sleep (d * (attempt : ℚ))]
            else [])
        ++ expectedRetryTrace rc d req left (attempt + 1)

/-- The `fetch_data` retry loop on an all-failing script produces
exactly the closed-form trace, no result, and the scripted exception
as `last_exception` whenever at least one attempt ran. -/
theorem fetchAttempts_allExc (c : Connector) (ep : EndpointCfg)
    (params : Option (List (String × PyVal))) (req : Request) (e : Exc)
    (ps : List (Option PyVal)) :
    ∀ left attempt lastE,
      fetchAttempts c ep params req (fun _ => .exc e) ps left attempt
        lastE =
      (expectedRetryTrace c.retry_count c.retry_delay req left attempt,
       Option.none, if left = 0 then lastE else some e) := by
  intro left
  induction left with
  | zero => intro attempt lastE; rfl
  | succ k ih =>
      intro attempt lastE
      simp only [fetchAttempts, expectedRetryTrace, ih]
      by_cases h : attempt < c.retry_count <;> simp [h]

/-- The single-item `send_data` retry loop on an all-failing script
produces the same closed-form trace and last exception. -/
theorem sendAttempts_allExc (c : Connector) (req : Request) (e : Exc) :
    ∀ left attempt lastE,
      sendAttempts c req (fun _ => .exc e) left attempt lastE =
      (expectedRetryTrace c.retry_count c.retry_delay req left attempt,
       Option.none, if left = 0 then lastE else some e) := by
  intro left
  induction left with
  | zero => intro attempt lastE; rfl
  | succ k ih =>
      intro attempt lastE
      simp only [sendAttempts, expectedRetryTrace, ih]
      by_cases h : attempt < c.retry_count <;> simp [h]

/-- Pointwise evaluation of the sleep projection. -/
theorem fetchSleeps_cons_acquire (l : List FetchEv) :
    fetchSleeps (FetchEv.acquire :: l) = fetchSleeps l := rfl

/-- Pointwise evaluation of the sleep projection. -/
theorem fetchSleeps_cons_request (r : Request) (l : List FetchEv) :
    fetchSleeps (FetchEv.request r :: l) = fetchSleeps l := rfl

/-- Pointwise evaluation of the sleep projection. -/
theorem fetchSleeps_cons_sleep (t : ℚ) (l : List FetchEv) :
    fetchSleeps (FetchEv.sleep t :: l) = t :: fetchSleeps l := rfl

/-- Evaluation of the request-counting predicate on each trace event
constructor. -/
theorem isRequestEv_vals (r : Request) (s : Nat) (t : ℚ) :
    isRequestEv FetchEv.acquire = false
    ∧ isRequestEv (FetchEv.request r) = true
    ∧ isRequestEv (FetchEv.updateFromResponse s) = false
    ∧ isRequestEv (FetchEv.pageRequest r) = false
    ∧ isRequestEv (FetchEv.sleep t) = false :=
  ⟨rfl, rfl, rfl, rfl, rfl⟩

/-- Each attempt of the closed-form trace contains exactly one
network call. -/
theorem countP_expectedRetryTrace (rc : Nat) (d : ℚ) (req : Request) :
    ∀ left attempt,
      (expectedRetryTrace rc d req left attempt).countP
        (fun ev => isRequestEv ev) = left := by
  intro left
  induction left with
  | zero => intro _; rfl
  | succ k ih =>
      intro attempt
      simp only [expectedRetryTrace, List.countP_append, ih]
      by_cases h : attempt < rc <;>
        simp [h, List.countP_cons, isRequestEv] <;> omega

/-- The sleeps of the closed-form trace are the linear backoffs of the
attempts that still have a retry remaining. -/
theorem fetchSleeps_expectedRetryTrace (rc : Nat) (d : ℚ) (req : Request) :
    ∀ left attempt,
      fetchSleeps (expectedRetryTrace rc d req left attempt) =
        (List.range left).filterMap (fun i =>
          if attempt + i < rc then some (d * ((attempt + i : Nat) : ℚ))
          else Option.none) := by
  intro left
  induction left with
  | zero => intro _; rfl
  | succ k ih =>
      intro attempt
      have hshift :
          (fun i =>
            if attempt + (i + 1) < rc then
              some (d * ((attempt + (i + 1) : Nat) : ℚ))
            else Option.none) =
          (fun i =>
            if (attempt + 1) + i < rc then
              some (d * (((attempt + 1) + i : Nat) : ℚ))
            else Option.none) := by
        funext i
        have hadd : attempt + (i + 1) = (attempt + 1) + i := by omega
        rw [hadd]
      by_cases h : attempt < rc
      · simp only [expectedRetryTrace, if_pos h, List.cons_append,
          List.nil_append, fetchSleeps_cons_acquire,
          fetchSleeps_cons_request, fetchSleeps_cons_sleep, ih, hshift,
          List.range_succ_eq_map, List.filterMap_cons, List.filterMap_map,
          Function.comp_def, Nat.succ_eq_add_one, Nat.add_zero]
      · simp only [expectedRetryTrace, if_neg h, List.cons_append,
          List.nil_append, fetchSleeps_cons_acquire,
          fetchSleeps_cons_request, ih, hshift,
          List.range_succ_eq_map, List.filterMap_cons, List.filterMap_map,
          Function.comp_def, Nat.succ_eq_add_one, Nat.add_zero]

/-- Specialized to the whole run (attempts 1..n), the sleeps are
`retry_delay * attempt` for `attempt = 1..n-1`. -/
theorem fetchSleeps_full_run (n : Nat) (hn : 1 ≤ n) (d : ℚ)
    (req : Request) :
    fetchSleeps (expectedRetryTrace n d req n 1) =
      (List.range (n - 1)).map (fun i => d * ((i + 1 : Nat) : ℚ)) := by
  obtain ⟨m, rfl⟩ : ∃ m, n = m + 1 :=
    ⟨n - 1, (Nat.succ_pred_eq_of_pos hn).symm⟩
  rw [fetchSleeps_expectedRetryTrace]
  simp only [Nat.add_sub_cancel]
  rw [List.range_succ, List.filterMap_append]
  have h1 : (List.range m).filterMap (fun i =>
      if 1 + i < m + 1 then some (d * ((1 + i : Nat) : ℚ))
      else Option.none) =
      (List.range m).map (fun i => d * ((i + 1 : Nat) : ℚ)) := by
    rw [List.filterMap_congr (g := fun i =>
      some (d * ((i + 1 : Nat) : ℚ)))]
    · rw [show (fun i => some (d * ((i + 1 : Nat) : ℚ))) =
        (some ∘ fun i => d * ((i + 1 : Nat) : ℚ)) from rfl]
      exact congrFun (List.filterMap_eq_map _) (List.range m)
    · intro i hi
      have him : i < m := List.mem_range.mp hi
      have hlt : 1 + i < m + 1 := by omega
      rw [if_pos hlt]
      have : 1 + i = i + 1 := by omega
      rw [this]
  have h2 : ([m] : List Nat).filterMap (fun i =>
      if 1 + i < m + 1 then some (d * ((1 + i : Nat) : ℚ))
      else Option.none) = [] := by
    have : ¬ (1 + m < m + 1) := by omega
    simp [this]
  rw [h1, h2, List.append_nil]

/-- Claim C5 counterexample: with `retry_count = 3` and every attempt
failing, `fetch_data` makes exactly 3 network attempts in total — the
initial attempt plus 2 retries — not the 4 attempts that "retries up
to retry_count times after the initial failure" would require. -/
theorem C5_retry_count_is_total_attempts :
    ((fetchData (cRetry 3 1) epPlain Option.none
        (fun _ => .exc (.transport "boom")) []).1.countP
      (fun ev => isRequestEv ev)) = 3
    ∧ ((fetchData (cRetry 3 1) epPlain Option.none
        (fun _ => .exc (.transport "boom")) []).1.countP
      (fun ev => isRequestEv ev)) ≠ 3 + 1 := by
  have h3 : ((fetchData (cRetry 3 1) epPlain Option.none
      (fun _ => .exc (.transport "boom")) []).1.countP
    (fun ev => isRequestEv ev)) = 3 := rfl
  exact ⟨h3, by rw [h3]; decide⟩

/-- Claim C5 (amended): with every network attempt failing,
`fetch_data` (and single-item `send_data`) makes `retry_count` total
attempts — the initial attempt plus up to `retry_count - 1` retries —
sleeping `retry_delay * attempt` seconds between consecutive attempts
(linearly increasing), and after exhaustion raises the structured
error carrying the error category, status code, response body
truncated to its first 1000 characters, request URL and method, and
the additional context. -/
theorem C5_retry_exhaustion_amended (n : Nat) (hn : 1 ≤ n) (d : ℚ)
    (e : Exc) :
    fetchData (cRetry n d) epPlain Option.none (fun _ => .exc e) [] =
      (expectedRetryTrace n d reqPlain n 1,
       .error (mkFetchError "users" reqPlain Option.none e))
    ∧ sendDataSingle (cRetry n d) epPlain (fun _ => .exc e) =
      (expectedRetryTrace n d reqPlain n 1,
       .error (mkSendError "users" reqPlain e))
    ∧ (expectedRetryTrace n d reqPlain n 1).countP
        (fun ev => isRequestEv ev) = n
    ∧ fetchSleeps (expectedRetryTrace n d reqPlain n 1) =
        (List.range (n - 1)).map (fun i => d * ((i + 1 : Nat) : ℚ))
    ∧ (mkFetchError "users" reqPlain Option.none e).error_category =
        (categorizeError e).1
    ∧ (mkFetchError "users" reqPlain Option.none e).status_code =
        (categorizeError e).2
    ∧ (mkFetchError "users" reqPlain Option.none e).response_body =
        (excResponseText e).map (fun t => pyTake t 1000)
    ∧ (mkFetchError "users" reqPlain Option.none e).request_url =
        some "/users"
    ∧ (mkFetchError "users" reqPlain Option.none e).request_method =
        some "GET"
    ∧ (mkFetchError "users" reqPlain Option.none e).additional_context =
        .dict [("endpoint", .str "users"), ("params", PyVal.none)] := by
  have hne : ¬ (n = 0) := by omega
  refine ⟨?_, ?_, countP_expectedRetryTrace n d reqPlain n 1,
    fetchSleeps_full_run n hn d reqPlain, rfl, rfl, rfl, rfl, rfl, rfl⟩
  · simp only [fetchData, prepareRequest_plain_eq,
      fetchAttempts_allExc, cRetry_retry_count, cRetry_retry_delay,
      if_neg hne]
    rfl
  · simp only [sendDataSingle, prepareRequest_plain_eq,
      sendAttempts_allExc, cRetry_retry_count, cRetry_retry_delay,
      if_neg hne]
    rfl

/-- Witness for `C5_retry_exhaustion_amended` at `retry_count = 3`,
`retry_delay = 1` and a 503 status error. -/
theorem C5_retry_exhaustion_amended_witness :
    fetchData (cRetry 3 1) epPlain Option.none
      (fun _ => .exc (.httpStatus 503 "unavailable")) [] =
      (expectedRetryTrace 3 1 reqPlain 3 1,
       .error (mkFetchError "users" reqPlain Option.none
         (.httpStatus 503 "unavailable")))
    ∧ fetchSleeps (expectedRetryTrace 3 1 reqPlain 3 1) =
        (List.range 2).map (fun i => (1 : ℚ) * ((i + 1 : Nat) : ℚ)) :=
  ⟨(C5_retry_exhaustion_amended 3 (by decide) 1
      (.httpStatus 503 "unavailable")).1,
   (C5_retry_exhaustion_amended 3 (by decide) 1
      (.httpStatus 503 "unavailable")).2.2.2.1⟩

/-- Inversion of a successful `_parse_sse_event`: the returned dict is
exactly the six-entry dict built from the accumulated fields. -/
theorem parseSseEvent_inv (jsonParse : String → Option PyVal)
    (block : List String) (dj : Bool) (parsed : List (String × PyVal))
    (h : parseSseEvent jsonParse block dj = some parsed) :
    parsed =
      [("id", optStrVal (parseFields block).event_id),
       ("event", .str (parseFields block).event_name),
       ("data",
         if !(parseFields block).data_lines.isEmpty then
           decodeSseData jsonParse
             (String.intercalate "\n" (parseFields block).data_lines) dj
         else PyVal.none),
       ("retry", optIntVal (parseFields block).retry_ms),
       ("raw_data",
         .str (String.intercalate "\n" (parseFields block).data_lines)),
       ("has_data", .bool (!(parseFields block).data_lines.isEmpty))] := by
  unfold parseSseEvent at h
  split at h
  · exact Option.noConfusion h
  · split at h
    · exact Option.noConfusion h
    · injection h with h2
      exact h2.symm
/-- Claim C7: for every SSE block whose lines include at least one
`data:` line, `_parse_sse_event` (with JSON decoding on) returns an
event whose `data` field equals the JSON decoding of the
newline-joined data values when that joined string parses as JSON,
and otherwise equals the raw joined string — a JSON decoding failure
is never an error.  `jsonParse` models `json.loads`; the second
hypothesis states the only property of `json.loads` used, that
whitespace-only strings never parse. -/
theorem C7_parse_data_json_fallback (jsonParse : String → Option PyVal)
    (raw_lines : List String)
    (hdata : (parseFields raw_lines).data_lines ≠ [])
    (hws : pyStrip (joinedData raw_lines) = "" →
      jsonParse (joinedData raw_lines) = Option.none) :
    ∃ parsed, parseSseEvent jsonParse raw_lines true = some parsed
      ∧ dictGet parsed "data" =
          some (match jsonParse (joinedData raw_lines) with
                | some v => v
                | Option.none => .str (joinedData raw_lines)) := by
  have hne : raw_lines ≠ [] := by
    intro h
    rw [h] at hdata
    exact hdata rfl
  have hbe : raw_lines.isEmpty = false := by
    cases raw_lines with
    | nil => exact absurd rfl hne
    | cons a l => rfl
  have hhd : (parseFields raw_lines).data_lines.isEmpty = false := by
    cases hdl : (parseFields raw_lines).data_lines with
    | nil => exact absurd hdl hdata
    | cons a l => rfl
  refine ⟨[("id", optStrVal (parseFields raw_lines).event_id),
    ("event", .str (parseFields raw_lines).event_name),
    ("data",
      if !(parseFields raw_lines).data_lines.isEmpty then
        decodeSseData jsonParse
          (String.intercalate "\n" (parseFields raw_lines).data_lines)
          true
      else PyVal.none),
    ("retry", optIntVal (parseFields raw_lines).retry_ms),
    ("raw_data",
      .str (String.intercalate "\n" (parseFields raw_lines).data_lines)),
    ("has_data", .bool (!(parseFields raw_lines).data_lines.isEmpty))],
    ?_, ?_⟩
  · unfold parseSseEvent
    rw [if_neg (by simp [hbe])]
    rw [if_neg (by simp [hhd])]
  · have hget :
        dictGet
          [("id", optStrVal (parseFields raw_lines).event_id),
           ("event", .str (parseFields raw_lines).event_name),
           ("data",
             if !(parseFields raw_lines).data_lines.isEmpty then
               decodeSseData jsonParse
                 (String.intercalate "\n"
                   (parseFields raw_lines).data_lines) true
             else PyVal.none),
           ("retry", optIntVal (parseFields raw_lines).retry_ms),
           ("raw_data",
             .str (String.intercalate "\n"
               (parseFields raw_lines).data_lines)),
           ("has_data",
             .bool (!(parseFields raw_lines).data_lines.isEmpty))]
          "data" =
        some (if !(parseFields raw_lines).data_lines.isEmpty then
            decodeSseData jsonParse
              (String.intercalate "\n"
                (parseFields raw_lines).data_lines) true
          else PyVal.none) := rfl
    rw [hget, hhd]
    simp only [Bool.not_false, if_true, ite_true]
    by_cases hw : pyStrip (joinedData raw_lines) = ""
    · rw [show decodeSseData jsonParse
          (String.intercalate "\n" (parseFields raw_lines).data_lines)
          true =
        decodeSseData jsonParse (joinedData raw_lines) true from rfl]
      rw [hws hw]
      simp [decodeSseData, hw]
    · rw [show decodeSseData jsonParse
          (String.intercalate "\n" (parseFields raw_lines).data_lines)
          true =
        decodeSseData jsonParse (joinedData raw_lines) true from rfl]
      simp only [decodeSseData, Bool.not_true, if_false,
        Bool.false_eq_true, ite_false]
      rw [if_neg (by simp [hw])]

/-- Witness for `C7_parse_data_json_fallback` on the block
`["data: hello"]` with a `json.loads` model that fails on every
input. -/
theorem C7_parse_data_json_fallback_witness :
    ∃ parsed, parseSseEvent jpNone ["data: hello"] true = some parsed
      ∧ dictGet parsed "data" =
          some (match jpNone (joinedData ["data: hello"]) with
                | some v => v
                | Option.none => .str (joinedData ["data: hello"])) :=
  C7_parse_data_json_fallback jpNone ["data: hello"]
    (by intro h; exact List.noConfusion h) (fun _ => rfl)

/-- Removing a key by filtering leaves a dict without that key. -/
theorem dictHas_filter_ne (l : List (String × PyVal)) (k : String) :
    dictHas (l.filter (fun kv => kv.1 != k)) k = false := by
  induction l with
  | nil => rfl
  | cons a l ih =>
      rw [List.filter_cons]
      by_cases h : a.1 = k
      · simp only [h, bne_self_eq_false, Bool.false_eq_true, if_false,
          ite_false]
        exact ih
      · have hb : (a.1 != k) = true := by simp [bne_iff_ne, h]
        rw [if_pos hb]
        simp only [dictHas, List.any_cons] at ih ⊢
        simp [beq_iff_eq, h, ih]

/-- Inversion of a dispatching `_dispatch_event`: an event is handed
out only when its `has_data` entry is truthy, and the handed-out
event is the dict with the `has_data` key popped. -/
theorem dispatchEvent_some_inv (parsed : List (String × PyVal))
    (st st2 : StreamState) (ev : List (String × PyVal))
    (h : dispatchEvent parsed st = (st2, some ev)) :
    pyTruthy ((dictGet parsed "has_data").getD PyVal.none) = true
    ∧ ev = parsed.filter (fun kv => kv.1 != "has_data")
    ∧ dictHas ev "has_data" = false := by
  unfold dispatchEvent at h
  by_cases hd : pyTruthy ((dictGet parsed "has_data").getD PyVal.none)
  · rw [if_pos hd] at h
    injection h with h1 h2
    injection h2 with h3
    exact ⟨hd, h3.symm, by rw [← h3]; exact dictHas_filter_ne parsed _⟩
  · rw [if_neg hd] at h
    injection h with h1 h2
    exact Option.noConfusion h2

/-- Every event yielded by the per-connection line loop comes from a
dispatching `_dispatch_event` on a parsed block. -/
theorem processLines_yield (jsonParse : String → Option PyVal)
    (opts : StreamOptions) :
    ∀ (lines pending : List String) (st : StreamState)
      (ev : List (String × PyVal)),
      StreamEv.yield ev ∈
        (processLines jsonParse opts lines pending st).1 →
      ∃ block st1 parsed,
        parseSseEvent jsonParse block opts.decode_json = some parsed ∧
        (dispatchEvent parsed st1).2 = some ev := by
  intro lines
  induction lines with
  | nil =>
      intro pending st ev h
      simp [processLines] at h
  | cons raw rest ih =>
      intro pending st ev h
      rw [processLines] at h
      split at h
      · split at h
        · exact ih [] st ev h
        · rename_i parsed hparse
          split at h
          · rename_i st2 hdisp
            exact ih [] st2 ev h
          · rename_i st2 ev0 hdisp
            split at h
            · simp only [List.mem_singleton] at h
              injection h with h1
              subst h1
              exact ⟨pending, st, parsed, hparse, by rw [hdisp]⟩
            · rcases hrec : processLines jsonParse opts rest [] st2 with
                ⟨evs, st3, pend, early⟩
              rw [hrec] at h
              simp only [List.mem_cons] at h
              rcases h with h | h
              · injection h with h1
                subst h1
                exact ⟨pending, st, parsed, hparse, by rw [hdisp]⟩
              · exact ih [] st2 ev (by rw [hrec]; exact h)
      · exact ih (pending ++ [rstripCR raw]) st ev h

/-- Every event yielded by the trailing-block flush comes from a
dispatching `_dispatch_event` on the parsed pending block. -/
theorem flushTrailing_yield (jsonParse : String → Option PyVal)
    (opts : StreamOptions) (pending : List String) (st : StreamState)
    (ev : List (String × PyVal))
    (h : StreamEv.yield ev ∈
      (flushTrailing jsonParse opts pending st).1) :
    ∃ block st1 parsed,
      parseSseEvent jsonParse block opts.decode_json = some parsed ∧
      (dispatchEvent parsed st1).2 = some ev := by
  unfold flushTrailing at h
  split at h
  · simp at h
  · split at h
    · simp at h
    · rename_i parsed hparse
      split at h
      · rename_i st2 hdisp
        simp at h
      · rename_i st2 ev0 hdisp
        simp only [List.mem_singleton] at h
        injection h with h1
        subst h1
        exact ⟨pending, st, parsed, hparse, by rw [hdisp]⟩

/-- Every event yielded by one connection's 2xx processing comes from
a dispatching `_dispatch_event` on a parsed block. -/
theorem connResult_yield (jsonParse : String → Option PyVal)
    (opts : StreamOptions) (lines : List String) (st : StreamState)
    (ev : List (String × PyVal))
    (hm : StreamEv.yield ev ∈ (connResult jsonParse opts lines st).1) :
    ∃ block st1 parsed,
      parseSseEvent jsonParse block opts.decode_json = some parsed ∧
      (dispatchEvent parsed st1).2 = some ev := by
  unfold connResult at hm
  rcases hpl : processLines jsonParse opts lines [] st with
    ⟨evs1, st2, pending, early1⟩
  rw [hpl] at hm
  simp only [] at hm
  cases early1 with
  | true =>
      simp at hm
      exact processLines_yield jsonParse opts lines [] st ev
        (by rw [hpl]; exact hm)
  | false =>
      rcases hft : flushTrailing jsonParse opts pending st2 with
        ⟨evs2, st4, early2⟩
      rw [hft] at hm
      simp at hm
      rcases hm with hm | hm
      · exact processLines_yield jsonParse opts lines [] st ev
          (by rw [hpl]; exact hm)
      · exact flushTrailing_yield jsonParse opts pending st2 ev
          (by rw [hft]; exact hm)

/-- Every event yielded across the whole `stream_sse` connection loop
comes from a dispatching `_dispatch_event` on a parsed block. -/
theorem runStreamGo_yield (c : Connector) (ep : EndpointCfg)
    (jsonParse : String → Option PyVal) (opts : StreamOptions)
    (params : Option (List (String × PyVal))) :
    ∀ (script : List ConnOutcome) (st : StreamState)
      (ev : List (String × PyVal)),
      StreamEv.yield ev ∈
        (runStreamGo c ep jsonParse opts params script st).1 →
      ∃ block st1 parsed,
        parseSseEvent jsonParse block opts.decode_json = some parsed ∧
        (dispatchEvent parsed st1).2 = some ev := by
  intro script
  induction script with
  | nil =>
      intro st ev h
      simp [runStreamGo] at h
  | cons conn rest ih =>
      intro st ev h
      rcases conn with e | ⟨status, text, lines, endExc⟩ <;>
        rw [runStreamGo] at h
      · -- connection-open exception feeding the reconnect logic
        split at h
        · simp at h
        · simp at h
          exact ih _ ev h
      · -- open stream
        split at h
        · -- non-2xx status raises into the reconnect logic
          split at h
          · simp at h
          · simp at h
            exact ih _ ev h
        · -- 2xx: line loop, trailing flush, close handling
          generalize hcr : connResult jsonParse opts lines st = r at h
          obtain ⟨evs, st3, early⟩ := r
          simp only [] at h
          have memCR : StreamEv.yield ev ∈ evs →
              ∃ block st1 parsed,
                parseSseEvent jsonParse block opts.decode_json =
                  some parsed ∧
                (dispatchEvent parsed st1).2 = some ev := fun hm =>
            connResult_yield jsonParse opts lines st ev
              (by rw [hcr]; exact hm)
          split at h
          · simp at h
            exact memCR h
          · split at h
            · split at h
              · simp at h
                exact memCR h
              · simp at h
                rcases h with h | h
                · exact memCR h
                · exact ih _ ev h
            · split at h
              · simp at h
                exact memCR h
              · simp at h
                rcases h with h | h
                · exact memCR h
                · exact ih _ ev h

/-- Claim C6: (1) `_dispatch_event` hands an event out only when its
transient `has_data` entry is truthy, and the `has_data` key is
popped before the event crosses the boundary; (2) every event the
`stream_sse` connection loop yields carries no `has_data` key and
came from such a dispatch of a parsed block whose `has_data` entry
was `True`; (3) a parsed block that is not dispatched still updates
`last_event_id` from its (truthy) `id` field and the effective
reconnect delay from its `retry` field (milliseconds to seconds,
floored at zero), leaving the dispatched-events count unchanged. -/
theorem C6_dispatch_invariant :
    (∀ (parsed : List (String × PyVal)) (st st2 : StreamState)
       (ev : List (String × PyVal)),
       dispatchEvent parsed st = (st2, some ev) →
         pyTruthy ((dictGet parsed "has_data").getD PyVal.none) = true
         ∧ dictHas ev "has_data" = false)
    ∧ (∀ (c : Connector) (ep : EndpointCfg)
         (jsonParse : String → Option PyVal) (opts : StreamOptions)
         (params : Option (List (String × PyVal)))
         (script : List ConnOutcome) (st : StreamState)
         (ev : List (String × PyVal)),
         StreamEv.yield ev ∈
           (runStreamGo c ep jsonParse opts params script st).1 →
         dictHas ev "has_data" = false
         ∧ ∃ block st1 parsed,
             parseSseEvent jsonParse block opts.decode_json = some parsed
             ∧ (dispatchEvent parsed st1).2 = some ev
             ∧ dictGet parsed "has_data" = some (.bool true))
    ∧ (∀ (jsonParse : String → Option PyVal) (block : List String)
         (dj : Bool) (parsed : List (String × PyVal)) (st : StreamState),
         parseSseEvent jsonParse block dj = some parsed →
         (dispatchEvent parsed st).2 = Option.none →
           (dispatchEvent parsed st).1.last_event_id =
             (match (parseFields block).event_id with
              | some i => if i ≠ "" then some i else st.last_event_id
              | Option.none => st.last_event_id)
           ∧ (dispatchEvent parsed st).1.effective_delay =
             (match (parseFields block).retry_ms with
              | some n => max 0 ((n : ℚ) / 1000)
              | Option.none => st.effective_delay)
           ∧ (dispatchEvent parsed st).1.received_events =
             st.received_events) := by
  refine ⟨?_, ?_, ?_⟩
  · intro parsed st st2 ev h
    obtain ⟨h1, _, h3⟩ := dispatchEvent_some_inv parsed st st2 ev h
    exact ⟨h1, h3⟩
  · intro c ep jsonParse opts params script st ev h
    obtain ⟨block, st1, parsed, hp, hd⟩ :=
      runStreamGo_yield c ep jsonParse opts params script st ev h
    rcases hde : dispatchEvent parsed st1 with ⟨stX, o⟩
    rw [hde] at hd
    simp only [] at hd
    subst hd
    obtain ⟨htr, _, hhas⟩ := dispatchEvent_some_inv parsed st1 stX ev hde
    refine ⟨hhas, block, st1, parsed, hp, by rw [hde], ?_⟩
    have hget : dictGet parsed "has_data" =
        some (.bool (!(parseFields block).data_lines.isEmpty)) := by
      rw [parseSseEvent_inv jsonParse block opts.decode_json parsed hp]
      rfl
    rw [hget]
    rw [hget] at htr
    simp only [Option.getD_some, pyTruthy] at htr
    rw [htr]
  · intro jsonParse block dj parsed st hp hnd
    rw [parseSseEvent_inv jsonParse block dj parsed hp] at hnd ⊢
    cases hflag : (parseFields block).data_lines.isEmpty with
    | false =>
        exact absurd hnd (by simp [dispatchEvent, dictGet, pyTruthy, hflag])
    | true =>
        rcases hr : (parseFields block).retry_ms with _ | n <;>
          rcases he : (parseFields block).event_id with _ | i
        · exact ⟨rfl, rfl, rfl⟩
        · by_cases hi : i = ""
          · subst hi
            simp [dispatchEvent, dictGet, optStrVal, optIntVal,
              pyIntOfVal, pyTruthy]
          · have hib : (i != "") = true := by simp [bne_iff_ne, hi]
            simp [dispatchEvent, dictGet, optStrVal, optIntVal,
              pyIntOfVal, pyTruthy, pyStr, hib, hi]
        · simp [dispatchEvent, dictGet, optStrVal, optIntVal,
            pyIntOfVal, pyTruthy]
        · by_cases hi : i = ""
          · subst hi
            simp [dispatchEvent, dictGet, optStrVal, optIntVal,
              pyIntOfVal, pyTruthy]
          · have hib : (i != "") = true := by simp [bne_iff_ne, hi]
            simp [dispatchEvent, dictGet, optStrVal, optIntVal,
              pyIntOfVal, pyTruthy, pyStr, hib, hi]

/-- Options fixture for the dispatch-invariant witness: reconnect
off, decoding on, no event cap. -/
def optsW : StreamOptions :=
  { max_events := Option.none, reconnect := false, reconnect_delay := 1,
    max_reconnect_attempts := Option.none, read_timeout := 30,
    decode_json := true }

/-- Witness for `C6_dispatch_invariant`: each part applied at a
concrete input with its hypotheses discharged. -/
theorem C6_dispatch_invariant_witness :
    (pyTruthy ((dictGet [("has_data", PyVal.bool true)]
        "has_data").getD PyVal.none) = true
      ∧ dictHas ([] : List (String × PyVal)) "has_data" = false)
    ∧ (dictHas [("id", PyVal.none), ("event", .str "message"),
        ("data", .str "ok"), ("retry", PyVal.none),
        ("raw_data", .str "ok")] "has_data" = false
      ∧ ∃ block st1 parsed,
          parseSseEvent jpNone block optsW.decode_json = some parsed
          ∧ (dispatchEvent parsed st1).2 =
              some [("id", PyVal.none), ("event", .str "message"),
                ("data", .str "ok"), ("retry", PyVal.none),
                ("raw_data", .str "ok")]
          ∧ dictGet parsed "has_data" = some (.bool true))
    ∧ ((dispatchEvent
          [("id", optStrVal (some "7")), ("event", .str "message"),
           ("data", PyVal.none), ("retry", optIntVal (some 1500)),
           ("raw_data", .str ""), ("has_data", .bool false)]
          {}).1.last_event_id = some "7"
      ∧ (dispatchEvent
          [("id", optStrVal (some "7")), ("event", .str "message"),
           ("data", PyVal.none), ("retry", optIntVal (some 1500)),
           ("raw_data", .str ""), ("has_data", .bool false)]
          {}).1.effective_delay = max 0 ((1500 : ℚ) / 1000)
      ∧ (dispatchEvent
          [("id", optStrVal (some "7")), ("event", .str "message"),
           ("data", PyVal.none), ("retry", optIntVal (some 1500)),
           ("raw_data", .str ""), ("has_data", .bool false)]
          {}).1.received_events = 0) := by
  refine ⟨?_, ?_, ?_⟩
  · exact C6_dispatch_invariant.1 [("has_data", PyVal.bool true)] {}
      { received_events := 1 } [] (by rfl)
  · refine C6_dispatch_invariant.2.1 (cRetry 3 1) epSse jpNone optsW
      Option.none [.stream 200 "" ["data: ok", ""] Option.none] {}
      [("id", PyVal.none), ("event", .str "message"),
       ("data", .str "ok"), ("retry", PyVal.none),
       ("raw_data", .str "ok")] ?_
    show StreamEv.yield _ ∈
      (runStreamGo (cRetry 3 1) epSse jpNone optsW Option.none
        [.stream 200 "" ["data: ok", ""] Option.none] {}).1
    have htr : (runStreamGo (cRetry 3 1) epSse jpNone optsW Option.none
        [.stream 200 "" ["data: ok", ""] Option.none] {}).1 =
        [.acquire, .connect Option.none, .updateFromResponse 200,
         .yield [("id", PyVal.none), ("event", .str "message"),
           ("data", .str "ok"), ("retry", PyVal.none),
           ("raw_data", .str "ok")]] := by rfl
    rw [htr]
    exact .tail _ (.tail _ (.tail _ (.head _)))
  · have h3 := C6_dispatch_invariant.2.2 jpNone ["id: 7", "retry: 1500"]
      true
      [("id", optStrVal (some "7")), ("event", .str "message"),
       ("data", PyVal.none), ("retry", optIntVal (some 1500)),
       ("raw_data", .str ""), ("has_data", .bool false)]
      {} (by rfl) (by rfl)
    exact ⟨h3.1, h3.2.1, h3.2.2⟩

/-- Claim C9 counterexample: as stated — without any `max_events`
cap — the generator does not stop after the one successful event:
run to completion on a script whose third connection closes cleanly,
it sleeps twice (once after the transport error, once after the
one-event stream closes cleanly), not exactly once, while still
yielding exactly the one event. -/
theorem C9_extra_sleep_without_max_events :
    streamSleepCount (runStreamSse (cRetry 3 1) epSse jpNone Option.none
      Option.none true (1/10) (some 2) Option.none true
      [.exc (.transport "connection dropped"),
       .stream 200 "" ["data: ok", ""] Option.none,
       .stream 200 "" [] Option.none]).1 = 2
    ∧ (streamYields (runStreamSse (cRetry 3 1) epSse jpNone Option.none
      Option.none true (1/10) (some 2) Option.none true
      [.exc (.transport "connection dropped"),
       .stream 200 "" ["data: ok", ""] Option.none,
       .stream 200 "" [] Option.none]).1).length = 1
    ∧ (runStreamSse (cRetry 3 1) epSse jpNone Option.none
      Option.none true (1/10) (some 2) Option.none true
      [.exc (.transport "connection dropped"),
       .stream 200 "" ["data: ok", ""] Option.none,
       .stream 200 "" [] Option.none]).2 = .returned := by
  refine ⟨by rfl, by rfl, by rfl⟩

/-- Claim C9 (amended): with `max_events = 1` added to the first
scenario (as in the repository's own test), a transport error
followed by a successful single-event stream under
`max_reconnect_attempts = 2` sleeps exactly once for the configured
delay and yields exactly the one event; and two consecutive
transport errors under `max_reconnect_attempts = 1` raise a
structured error categorized NETWORK, enriched with the endpoint
context, request URL and method (no response body exists for a
transport error). -/
theorem C9_reconnect_scenarios_amended (jsonParse : String → Option PyVal)
    (d : ℚ) (hd : 0 ≤ d) (m1 m2 : String) :
    runStreamSse (cRetry 3 1) epSse jsonParse Option.none (some 1) true d
      (some 2) Option.none true
      [.exc (.transport m1), .stream 200 "" ["data: ok", ""] Option.none] =
      ([.acquire, .connect Option.none, .sleep d,
        .acquire, .connect Option.none, .updateFromResponse 200,
        .yield [("id", PyVal.none), ("event", .str "message"),
          ("data", decodeSseData jsonParse "ok" true),
          ("retry", PyVal.none), ("raw_data", .str "ok")]],
       .returned)
    ∧ runStreamSse (cRetry 3 1) epSse jsonParse Option.none Option.none
        true d (some 1) Option.none true
        [.exc (.transport m1), .exc (.transport m2)] =
      ([.acquire, .connect Option.none, .sleep d,
        .acquire, .connect Option.none],
       .raised (sseError "events"
         (buildSseRequest (cRetry 3 1) epSse Option.none Option.none)
         (.transport m2)))
    ∧ (sseError "events"
        (buildSseRequest (cRetry 3 1) epSse Option.none Option.none)
        (.transport m2)).error_category = ErrorCategory.NETWORK
    ∧ (sseError "events"
        (buildSseRequest (cRetry 3 1) epSse Option.none Option.none)
        (.transport m2)).request_url = some "/events"
    ∧ (sseError "events"
        (buildSseRequest (cRetry 3 1) epSse Option.none Option.none)
        (.transport m2)).request_method = some "GET"
    ∧ (sseError "events"
        (buildSseRequest (cRetry 3 1) epSse Option.none Option.none)
        (.transport m2)).additional_context =
        .dict [("endpoint", .str "events")]
    ∧ (sseError "events"
        (buildSseRequest (cRetry 3 1) epSse Option.none Option.none)
        (.transport m2)).response_body = Option.none := by
  have hmax : max (0 : ℚ) d = d := max_eq_right hd
  refine ⟨?_, ?_, rfl, rfl, rfl, rfl, rfl⟩
  · have h0 : runStreamSse (cRetry 3 1) epSse jsonParse Option.none
        (some 1) true d (some 2) Option.none true
        [.exc (.transport m1),
         .stream 200 "" ["data: ok", ""] Option.none] =
        ([.acquire, .connect Option.none, .sleep (max 0 d),
          .acquire, .connect Option.none, .updateFromResponse 200,
          .yield [("id", PyVal.none), ("event", .str "message"),
            ("data", decodeSseData jsonParse "ok" true),
            ("retry", PyVal.none), ("raw_data", .str "ok")]],
         .returned) := by rfl
    rw [h0, hmax]
  · have h0 : runStreamSse (cRetry 3 1) epSse jsonParse Option.none
        Option.none true d (some 1) Option.none true
        [.exc (.transport m1), .exc (.transport m2)] =
        ([.acquire, .connect Option.none, .sleep (max 0 d),
          .acquire, .connect Option.none],
         .raised (sseError "events"
           (buildSseRequest (cRetry 3 1) epSse Option.none Option.none)
           (.transport m2))) := by rfl
    rw [h0, hmax]

/-- Witness for `C9_reconnect_scenarios_amended` at delay `1/10` and
the failing `json.loads` model. -/
theorem C9_reconnect_scenarios_amended_witness :
    runStreamSse (cRetry 3 1) epSse jpNone Option.none (some 1) true
      (1/10) (some 2) Option.none true
      [.exc (.transport "connection dropped"),
       .stream 200 "" ["data: ok", ""] Option.none] =
      ([.acquire, .connect Option.none, .sleep (1/10),
        .acquire, .connect Option.none, .updateFromResponse 200,
        .yield [("id", PyVal.none), ("event", .str "message"),
          ("data", decodeSseData jpNone "ok" true),
          ("retry", PyVal.none), ("raw_data", .str "ok")]],
       .returned)
    ∧ (sseError "events"
        (buildSseRequest (cRetry 3 1) epSse Option.none Option.none)
        (.transport "second failure")).error_category =
        ErrorCategory.NETWORK :=
  ⟨(C9_reconnect_scenarios_amended jpNone (1/10) (by norm_num)
      "connection dropped" "second failure").1,
   (C9_reconnect_scenarios_amended jpNone (1/10) (by norm_num)
      "connection dropped" "second failure").2.2.1⟩

/-- On a script of clean empty streams, the connection loop keeps
incrementing the reconnect counter and terminates with a silent
normal return once the counter exceeds the cap. -/
theorem runStreamGo_clean_replicate (c : Connector) (ep : EndpointCfg)
    (jsonParse : String → Option PyVal) (opts : StreamOptions)
    (params : Option (List (String × PyVal)))
    (hrec : opts.reconnect = true) (n : Nat)
    (hmra : opts.max_reconnect_attempts = some (n : Int)) :
    ∀ (k : Nat) (st : StreamState), st.reconnect_attempts + k = n →
      (runStreamGo c ep jsonParse opts params
        (List.replicate (k + 1)
          (ConnOutcome.stream 200 "" [] Option.none)) st).2 =
      .returned := by
  intro k
  induction k with
  | zero =>
      intro st hst
      have hex : attemptsExceeded opts (st.reconnect_attempts + 1) =
          true := by
        simp only [attemptsExceeded, hmra]
        simp
        omega
      rw [show List.replicate 1 (ConnOutcome.stream 200 "" []
        Option.none) = [ConnOutcome.stream 200 "" [] Option.none] from
        rfl]
      rw [runStreamGo]
      simp [connResult, processLines, flushTrailing, reconnectDecision,
        hrec, hex, httpxRaisesForStatus]
  | succ k2 ih =>
      intro st hst
      have hex : attemptsExceeded opts (st.reconnect_attempts + 1) =
          false := by
        simp only [attemptsExceeded, hmra]
        simp
        omega
      rw [show List.replicate (k2 + 1 + 1) (ConnOutcome.stream 200 "" []
        Option.none) = ConnOutcome.stream 200 "" [] Option.none ::
        List.replicate (k2 + 1) (ConnOutcome.stream 200 "" []
          Option.none) from rfl]
      rw [runStreamGo]
      rw [if_neg (by decide : ¬ (httpxRaisesForStatus 200 = true))]
      rw [show connResult jsonParse opts [] st = ([], st, false) from rfl]
      simp only [reconnectDecision, hrec, hex, Bool.not_true,
        Bool.false_eq_true, if_false, ite_false, ite_true]
      exact ih { st with reconnect_attempts := st.reconnect_attempts + 1 }
        (by simp; omega)

/-- On a script of connection-open exceptions, the loop raises the
structured error once the same counter exceeds the cap. -/
theorem runStreamGo_exc_replicate (c : Connector) (ep : EndpointCfg)
    (jsonParse : String → Option PyVal) (opts : StreamOptions)
    (params : Option (List (String × PyVal)))
    (hrec : opts.reconnect = true) (n : Nat)
    (hmra : opts.max_reconnect_attempts = some (n : Int)) (e : Exc) :
    ∀ (k : Nat) (st : StreamState), st.reconnect_attempts + k = n →
      (runStreamGo c ep jsonParse opts params
        (List.replicate (k + 1) (ConnOutcome.exc e)) st).2 =
      .raised (sseError ep.name
        (buildSseRequest c ep params st.last_event_id) e) := by
  intro k
  induction k with
  | zero =>
      intro st hst
      have hex : attemptsExceeded opts (st.reconnect_attempts + 1) =
          true := by
        simp only [attemptsExceeded, hmra]
        simp
        omega
      rw [show List.replicate 1 (ConnOutcome.exc e) =
        [ConnOutcome.exc e] from rfl]
      rw [runStreamGo]
      simp [reconnectDecision, hrec, hex]
  | succ k2 ih =>
      intro st hst
      have hex : attemptsExceeded opts (st.reconnect_attempts + 1) =
          false := by
        simp only [attemptsExceeded, hmra]
        simp
        omega
      rw [show List.replicate (k2 + 1 + 1) (ConnOutcome.exc e) =
        ConnOutcome.exc e :: List.replicate (k2 + 1) (ConnOutcome.exc e)
        from rfl]
      rw [runStreamGo]
      simp only [reconnectDecision, hrec, hex]
      simp only [Bool.not_true, Bool.false_eq_true, if_false, ite_false,
        ite_true]
      exact ih { st with reconnect_attempts := st.reconnect_attempts + 1 }
        (by simp; omega)

/-- Claim C10: when reconnect is enabled with
`max_reconnect_attempts = n`, a run of `n + 1` clean stream closures
increments the reconnect counter each time and ends with a silent
normal generator return, while a run of `n + 1` connection
exceptions exhausts the same counter and raises the structured
NETWORK error; and the counter is shared: one exception followed by
`n` clean closures also ends silently (the exception consumed one of
the `n + 1` allowed connections). -/
theorem C10_clean_close_exhaustion_silent (n : Nat) (d : ℚ)
    (msg : String) :
    (runStreamSse (cRetry 3 1) epSse jpNone Option.none Option.none true
      d (some (n : Int)) Option.none true
      (List.replicate (n + 1)
        (ConnOutcome.stream 200 "" [] Option.none))).2 = .returned
    ∧ (runStreamSse (cRetry 3 1) epSse jpNone Option.none Option.none
      true d (some (n : Int)) Option.none true
      (List.replicate (n + 1) (ConnOutcome.exc (.transport msg)))).2 =
      .raised (sseError "events"
        (buildSseRequest (cRetry 3 1) epSse Option.none Option.none)
        (.transport msg))
    ∧ (sseError "events"
        (buildSseRequest (cRetry 3 1) epSse Option.none Option.none)
        (.transport msg)).error_category = ErrorCategory.NETWORK
    ∧ (1 ≤ n →
      (runStreamSse (cRetry 3 1) epSse jpNone Option.none Option.none
        true d (some (n : Int)) Option.none true
        (ConnOutcome.exc (.transport msg) ::
          List.replicate n
            (ConnOutcome.stream 200 "" [] Option.none))).2 =
        .returned) := by
  refine ⟨?_, ?_, rfl, ?_⟩
  · exact runStreamGo_clean_replicate (cRetry 3 1) epSse jpNone _
      Option.none rfl n rfl n _ (Nat.zero_add n)
  · exact runStreamGo_exc_replicate (cRetry 3 1) epSse jpNone _
      Option.none rfl n rfl (.transport msg) n _ (Nat.zero_add n)
  · intro hn
    obtain ⟨m, rfl⟩ : ∃ m, n = m + 1 :=
      ⟨n - 1, (Nat.succ_pred_eq_of_pos hn).symm⟩
    unfold runStreamSse
    rw [runStreamGo]
    have hex : attemptsExceeded
        (resolveStreamOptions (cRetry 3 1).timeout epSse.sse Option.none
          true d (some ((m + 1 : Nat) : Int)) Option.none true) 1 =
        false := by
      simp [attemptsExceeded, resolveStreamOptions]
    simp only [reconnectDecision, hex]
    simp only [Bool.not_true, Bool.false_eq_true, if_false, ite_false,
      ite_true]
    exact runStreamGo_clean_replicate (cRetry 3 1) epSse jpNone _
      Option.none rfl (m + 1) rfl m _ (by simp; omega)

/-- Witness for `C10_clean_close_exhaustion_silent` at
`max_reconnect_attempts = 1`. -/
theorem C10_clean_close_exhaustion_silent_witness :
    (runStreamSse (cRetry 3 1) epSse jpNone Option.none Option.none true
      (1/10) (some (1 : Int)) Option.none true
      (List.replicate 2 (ConnOutcome.stream 200 "" [] Option.none))).2 =
      .returned
    ∧ (runStreamSse (cRetry 3 1) epSse jpNone Option.none Option.none
      true (1/10) (some (1 : Int)) Option.none true
      (ConnOutcome.exc (.transport "boom") ::
        List.replicate 1
          (ConnOutcome.stream 200 "" [] Option.none))).2 = .returned :=
  ⟨(C10_clean_close_exhaustion_silent 1 (1/10) "boom").1,
   (C10_clean_close_exhaustion_silent 1 (1/10) "boom").2.2.2
     (by decide)⟩

end APILinker
